import Mathlib

/-!
# FM repeater controller (FM.cpp)

A shallow embedding of `CFM` from `FM.cpp`: the seven-state repeater state
machine, its timers, the per-sample audio path of `CFM::samples`, and
`CFM::reset`.

* Member functions of `CFM` become functions `CFM E → CFM E` on a record holding
  the member variables, the global `m_modemState`, the two `io` control lines
  and the text written by `DEBUG1`.
* The collaborators whose classes are not part of `FM.cpp` (keyers, timeout
  tone, CTCSS decoder/encoder, blanking limiter, filter stages) are a parameter
  `E : Collab`: every theorem holds for every implementation of them.
* The timer and the ring buffer are modelled from the specification.
* `q15_t` values are `Int`s; every store into a `q15_t` goes through `toQ15`.
-/

namespace MMDVM

/-! ## Machine integers -/

/-- Conversion of an integer to `q15_t` (signed 16 bit, two's complement wrap). -/
def toQ15 (x : Int) : Int := (x + 32768) % 65536 - 32768

/-! ## Enumerations -/

/-- The controller state `m_state` (the `FS_*` values used by `FM.cpp`). -/
inductive FMState where
  | FS_LISTENING
  | FS_KERCHUNK
  | FS_RELAYING
  | FS_RELAYING_WAIT
  | FS_TIMEOUT
  | FS_TIMEOUT_WAIT
  | FS_HANG
deriving DecidableEq, Repr

/-- The host modem mode `m_modemState`. `FM.cpp` only distinguishes `STATE_FM`
from everything else and only ever writes `STATE_FM` and `STATE_IDLE`. -/
inductive ModemState where
  | STATE_IDLE
  | STATE_FM
  | STATE_OTHER
deriving DecidableEq, Repr

open FMState ModemState

/-! ## Timer (modelled from the specification) -/

/-- Modelled from the spec: the timer value type of `m_callsignTimer`,
`m_timeoutTimer`, `m_holdoffTimer`, `m_kerchunkTimer`, `m_ackMinTimer`,
`m_ackDelayTimer` and `m_hangTimer`; the class itself is not in `FM.cpp`.
Spec §3: "configured timeout length, ..., elapsed counter, running flag". -/
structure Timer where
  timeout : Nat
  elapsed : Nat
  running : Bool
deriving DecidableEq, Repr

namespace Timer

/-- Modelled from the spec: `getTimeout`, the configured duration. -/
def getTimeout (t : Timer) : Nat := t.timeout

/-- Modelled from the spec: `start`. "start/stop toggle running"; "A duration of
0 means the timer is never started"; a start of a running timer is a restart
(the elapsed count begins again at zero). -/
def start (t : Timer) : Timer :=
  if 0 < t.timeout then { t with running := true, elapsed := 0 } else t

/-- Modelled from the spec: `stop`. "start/stop toggle running". -/
def stop (t : Timer) : Timer := { t with running := false }

/-- Modelled from the spec: `clock(n)` "advances elapsed time by n sample-ticks
only while running". -/
def clock (t : Timer) (n : Nat) : Timer :=
  if t.running then { t with elapsed := t.elapsed + n } else t

/-- Modelled from the spec: `isRunning`, the running flag. -/
def isRunning (t : Timer) : Bool := t.running

/-- Modelled from the spec: "`hasExpired` is true once elapsed ≥ configured
duration". -/
def hasExpired (t : Timer) : Bool := decide (t.timeout ≤ t.elapsed)

end Timer

/-! ## Ring buffer (modelled from the specification) -/

/-- Modelled from the spec: the bounded circular buffer of `m_inputRB` and
`m_outputRB` ("bounded circular buffers of fixed capacity ... holding audio
samples"); the class itself is not in `FM.cpp`. `length` is the constructor
argument, `data` the stored samples, oldest first. -/
structure RingBuffer where
  length : Nat
  data : List Int
deriving DecidableEq, Repr

namespace RingBuffer

/-- Modelled from the spec: `put` appends a sample unless the buffer is full. -/
def put (rb : RingBuffer) (x : Int) : RingBuffer :=
  if rb.data.length < rb.length then { rb with data := rb.data ++ [x] } else rb

/-- Modelled from the spec: `get` removes the oldest sample; on an empty buffer
it delivers nothing and the caller's variable keeps its value. -/
def get (rb : RingBuffer) : Option Int × RingBuffer :=
  match rb.data with
  | [] => (none, rb)
  | x :: rest => (some x, { rb with data := rest })

/-- Modelled from the spec: `reset` "clears the ... ring buffer". -/
def reset (rb : RingBuffer) : RingBuffer := { rb with data := [] }

end RingBuffer

/-! ## External collaborators (parameters) -/

/-- Modelled from the spec: the value returned by the CTCSS decoder's
`process`, "modeled as two orthogonal booleans (ready, valid)". The macros
`CTCSS_READY`, `CTCSS_NOT_READY` and `CTCSS_VALID` read these flags. -/
structure CtcssState where
  ready : Bool
  valid : Bool
deriving DecidableEq, Repr

/-- The collaborators `FM.cpp` commands but does not implement, as the
interfaces of spec §6: the state type of each and the member functions
`FM.cpp` calls. A function that returns a value and changes the object returns
the pair of both. -/
structure Collab where
  Keyer : Type
  TimeoutTone : Type
  CtcssRX : Type
  CtcssTX : Type
  Blanking : Type
  Filter : Type
  keyerStart : Keyer → Keyer
  keyerStop : Keyer → Keyer
  keyerIsRunning : Keyer → Bool
  keyerIsWanted : Keyer → Bool
  keyerGetHighAudio : Keyer → Int × Keyer
  keyerGetLowAudio : Keyer → Int × Keyer
  toneStart : TimeoutTone → TimeoutTone
  toneStop : TimeoutTone → TimeoutTone
  toneGetAudio : TimeoutTone → Int × TimeoutTone
  ctcssRXProcess : CtcssRX → Int → CtcssState × CtcssRX
  ctcssRXReset : CtcssRX → CtcssRX
  ctcssTXGetAudio : CtcssTX → Int × CtcssTX
  blankingProcess : Blanking → Int → Int × Blanking
  filter : Filter → Int → Int × Filter

/-! ## The controller object -/

/-- The member variables of `CFM` (names as in the constructor's initialiser
list, without the `m_` prefix), the global `m_modemState`, the two control
lines set through `io.setDecode` / `io.setADCDetection`, and the messages
written by `DEBUG1`, oldest first. -/
structure CFM (E : Collab) where
  callsign : E.Keyer
  rfAck : E.Keyer
  ctcssRX : E.CtcssRX
  ctcssTX : E.CtcssTX
  timeoutTone : E.TimeoutTone
  state : FMState
  callsignAtStart : Bool
  callsignAtEnd : Bool
  callsignAtLatch : Bool
  callsignTimer : Timer
  timeoutTimer : Timer
  holdoffTimer : Timer
  kerchunkTimer : Timer
  ackMinTimer : Timer
  ackDelayTimer : Timer
  hangTimer : Timer
  filterStage1 : E.Filter
  filterStage2 : E.Filter
  filterStage3 : E.Filter
  blanking : E.Blanking
  useCOS : Bool
  cosInvert : Bool
  rfAudioBoost : Int
  rxLevel : Int
  inputRB : RingBuffer
  outputRB : RingBuffer
  modemState : ModemState
  decode : Bool
  adcDetection : Bool
  debug : List String

variable {E : Collab}

/-- `DEBUG1(msg)`: writes one message to the debug output. -/
def DEBUG1 (msg : String) (s : CFM E) : CFM E :=
  { s with debug := s.debug ++ [msg] }

/-! ## Helpers of the state machine -/

/-- `CFM::sendCallsign` (FM.cpp 456-468). -/
def sendCallsign (s : CFM E) : CFM E :=
  if s.holdoffTimer.isRunning then
    if s.holdoffTimer.hasExpired then
      let s := DEBUG1 "Send callsign" s
      let s := { s with callsign := E.keyerStart s.callsign }
      { s with holdoffTimer := s.holdoffTimer.start }
    else s
  else
    let s := DEBUG1 "Send callsign" s
    { s with callsign := E.keyerStart s.callsign }

/-- `CFM::beginRelaying` (FM.cpp 470-474). -/
def beginRelaying (s : CFM E) : CFM E :=
  let s := { s with timeoutTimer := s.timeoutTimer.start }
  { s with ackMinTimer := s.ackMinTimer.start }

/-- The loop of `insertSilence`: `n` times `m_outputRB.put(0)`. -/
def putSilence : Nat → RingBuffer → RingBuffer
  | 0, rb => rb
  | n + 1, rb => putSilence n (rb.put 0)

/-- `CFM::insertSilence` (FM.cpp 484-490): `nSamples = ms * 24`. -/
def insertSilence (ms : Nat) (s : CFM E) : CFM E :=
  { s with outputRB := putSilence (ms * 24) s.outputRB }

/-- The check that closes `relayingState`, `relayingWaitState`, `hangState`,
`timeoutState` and `timeoutWaitState` (e.g. FM.cpp 336-339). -/
def callsignRepeat (s : CFM E) : CFM E :=
  if s.callsignTimer.isRunning && s.callsignTimer.hasExpired then
    let s := sendCallsign s
    { s with callsignTimer := s.callsignTimer.start }
  else s

/-! ## The seven state functions -/

/-- `CFM::listeningState` (FM.cpp 262-290). -/
def listeningState (validSignal : Bool) (s : CFM E) : CFM E :=
  if validSignal then
    let s :=
      if 0 < s.kerchunkTimer.getTimeout then
        let s := DEBUG1 "State to KERCHUNK" s
        let s := { s with state := FS_KERCHUNK }
        let s := { s with kerchunkTimer := s.kerchunkTimer.start }
        if s.callsignAtStart && !s.callsignAtLatch then sendCallsign s else s
      else
        let s := DEBUG1 "State to RELAYING" s
        let s := { s with state := FS_RELAYING }
        if s.callsignAtStart then sendCallsign s else s
    let s := insertSilence 50 s
    let s := beginRelaying s
    let s := { s with callsignTimer := s.callsignTimer.start }
    let s := { s with decode := true }
    let s := { s with adcDetection := true }
    let s := DEBUG1 "Change to STATE_FM" s
    { s with modemState := STATE_FM }
  else s

/-- The first part of the valid-signal branch of `listeningState` (FM.cpp
265-276): the choice between `FS_KERCHUNK` and `FS_RELAYING`. -/
def listeningEntry (s : CFM E) : CFM E :=
  if 0 < s.kerchunkTimer.getTimeout then
    let s := DEBUG1 "State to KERCHUNK" s
    let s := { s with state := FS_KERCHUNK }
    let s := { s with kerchunkTimer := s.kerchunkTimer.start }
    if s.callsignAtStart && !s.callsignAtLatch then sendCallsign s else s
  else
    let s := DEBUG1 "State to RELAYING" s
    let s := { s with state := FS_RELAYING }
    if s.callsignAtStart then sendCallsign s else s

/-- The last part of the valid-signal branch of `listeningState` (FM.cpp
280-288), after `insertSilence`. -/
def listeningCommit (s : CFM E) : CFM E :=
  let s := beginRelaying s
  let s := { s with callsignTimer := s.callsignTimer.start }
  let s := { s with decode := true }
  let s := { s with adcDetection := true }
  let s := DEBUG1 "Change to STATE_FM" s
  { s with modemState := STATE_FM }

/-- `CFM::kerchunkState` (FM.cpp 292-315). -/
def kerchunkState (validSignal : Bool) (s : CFM E) : CFM E :=
  if validSignal then
    if s.kerchunkTimer.hasExpired then
      let s := DEBUG1 "State to RELAYING" s
      let s := { s with state := FS_RELAYING }
      let s := { s with kerchunkTimer := s.kerchunkTimer.stop }
      if s.callsignAtStart && s.callsignAtLatch then
        let s := sendCallsign s
        { s with callsignTimer := s.callsignTimer.start }
      else s
    else s
  else
    let s := { s with decode := false }
    let s := { s with adcDetection := false }
    let s := DEBUG1 "State to LISTENING" s
    let s := { s with state := FS_LISTENING }
    let s := { s with kerchunkTimer := s.kerchunkTimer.stop }
    let s := { s with timeoutTimer := s.timeoutTimer.stop }
    let s := { s with ackMinTimer := s.ackMinTimer.stop }
    { s with callsignTimer := s.callsignTimer.stop }

/-- `CFM::relayingState` (FM.cpp 317-340). -/
def relayingState (validSignal : Bool) (s : CFM E) : CFM E :=
  let s :=
    if validSignal then
      if s.timeoutTimer.isRunning && s.timeoutTimer.hasExpired then
        let s := DEBUG1 "State to TIMEOUT" s
        let s := { s with state := FS_TIMEOUT }
        let s := { s with ackMinTimer := s.ackMinTimer.stop }
        let s := { s with timeoutTimer := s.timeoutTimer.stop }
        { s with timeoutTone := E.toneStart s.timeoutTone }
      else s
    else
      let s := { s with decode := false }
      let s := { s with adcDetection := false }
      let s := DEBUG1 "State to RELAYING_WAIT" s
      let s := { s with state := FS_RELAYING_WAIT }
      { s with ackDelayTimer := s.ackDelayTimer.start }
  callsignRepeat s

/-- `CFM::relayingWaitState` (FM.cpp 342-378). -/
def relayingWaitState (validSignal : Bool) (s : CFM E) : CFM E :=
  let s :=
    if validSignal then
      let s := { s with decode := true }
      let s := { s with adcDetection := true }
      let s := DEBUG1 "State to RELAYING" s
      let s := { s with state := FS_RELAYING }
      { s with ackDelayTimer := s.ackDelayTimer.stop }
    else
      if s.ackDelayTimer.isRunning && s.ackDelayTimer.hasExpired then
        let s := DEBUG1 "State to HANG" s
        let s := { s with state := FS_HANG }
        let s :=
          if s.ackMinTimer.isRunning then
            if s.ackMinTimer.hasExpired then
              let s := DEBUG1 "Send ack" s
              let s := { s with rfAck := E.keyerStart s.rfAck }
              { s with ackMinTimer := s.ackMinTimer.stop }
            else s
          else
            let s := DEBUG1 "Send ack" s
            let s := { s with rfAck := E.keyerStart s.rfAck }
            { s with ackMinTimer := s.ackMinTimer.stop }
        let s := { s with ackDelayTimer := s.ackDelayTimer.stop }
        let s := { s with timeoutTimer := s.timeoutTimer.stop }
        { s with hangTimer := s.hangTimer.start }
      else s
  callsignRepeat s

/-- `CFM::hangState` (FM.cpp 380-408). -/
def hangState (validSignal : Bool) (s : CFM E) : CFM E :=
  let s :=
    if validSignal then
      let s := { s with decode := true }
      let s := { s with adcDetection := true }
      let s := DEBUG1 "State to RELAYING" s
      let s := { s with state := FS_RELAYING }
      let s := DEBUG1 "Stop ack" s
      let s := { s with rfAck := E.keyerStop s.rfAck }
      beginRelaying s
    else
      if s.hangTimer.isRunning && s.hangTimer.hasExpired then
        let s := DEBUG1 "State to LISTENING" s
        let s := { s with state := FS_LISTENING }
        let s := { s with hangTimer := s.hangTimer.stop }
        let s := if s.callsignAtEnd then sendCallsign s else s
        { s with callsignTimer := s.callsignTimer.stop }
      else s
  callsignRepeat s

/-- `CFM::timeoutState` (FM.cpp 410-425). -/
def timeoutState (validSignal : Bool) (s : CFM E) : CFM E :=
  let s :=
    if !validSignal then
      let s := { s with decode := false }
      let s := { s with adcDetection := false }
      let s := DEBUG1 "State to TIMEOUT_WAIT" s
      let s := { s with state := FS_TIMEOUT_WAIT }
      { s with ackDelayTimer := s.ackDelayTimer.start }
    else s
  callsignRepeat s

/-- `CFM::timeoutWaitState` (FM.cpp 427-454). -/
def timeoutWaitState (validSignal : Bool) (s : CFM E) : CFM E :=
  let s :=
    if validSignal then
      let s := { s with decode := true }
      let s := { s with adcDetection := true }
      let s := DEBUG1 "State to TIMEOUT" s
      let s := { s with state := FS_TIMEOUT }
      { s with ackDelayTimer := s.ackDelayTimer.stop }
    else
      if s.ackDelayTimer.isRunning && s.ackDelayTimer.hasExpired then
        let s := DEBUG1 "State to HANG" s
        let s := { s with state := FS_HANG }
        let s := { s with timeoutTone := E.toneStop s.timeoutTone }
        let s := DEBUG1 "Send ack" s
        let s := { s with rfAck := E.keyerStart s.rfAck }
        let s := { s with ackDelayTimer := s.ackDelayTimer.stop }
        let s := { s with ackMinTimer := s.ackMinTimer.stop }
        let s := { s with timeoutTimer := s.timeoutTimer.stop }
        { s with hangTimer := s.hangTimer.start }
      else s
  callsignRepeat s

/-! ## `stateMachine`, `clock`, `reset` -/

/-- The `switch` of `CFM::stateMachine` (FM.cpp 211-235). -/
def dispatch (validSignal : Bool) (s : CFM E) : CFM E :=
  match s.state with
  | FS_LISTENING => listeningState validSignal s
  | FS_KERCHUNK => kerchunkState validSignal s
  | FS_RELAYING => relayingState validSignal s
  | FS_RELAYING_WAIT => relayingWaitState validSignal s
  | FS_TIMEOUT => timeoutState validSignal s
  | FS_TIMEOUT_WAIT => timeoutWaitState validSignal s
  | FS_HANG => hangState validSignal s

/-- The demotion to `STATE_IDLE` that closes `CFM::stateMachine`
(FM.cpp 237-248). -/
def demote (s : CFM E) : CFM E :=
  if s.state = FS_LISTENING ∧ s.modemState = STATE_FM then
    if !E.keyerIsWanted s.callsign && !E.keyerIsWanted s.rfAck then
      let s := DEBUG1 "Change to STATE_IDLE" s
      let s := { s with modemState := STATE_IDLE }
      let s := { s with callsignTimer := s.callsignTimer.stop }
      let s := { s with timeoutTimer := s.timeoutTimer.stop }
      let s := { s with kerchunkTimer := s.kerchunkTimer.stop }
      let s := { s with ackMinTimer := s.ackMinTimer.stop }
      let s := { s with ackDelayTimer := s.ackDelayTimer.stop }
      { s with hangTimer := s.hangTimer.stop }
    else s
  else s

/-- `CFM::stateMachine` (FM.cpp 209-249). -/
def stateMachine (validSignal : Bool) (s : CFM E) : CFM E :=
  demote (dispatch validSignal s)

/-- `CFM::clock` (FM.cpp 251-260). -/
def clock (length : Nat) (s : CFM E) : CFM E :=
  { s with
    callsignTimer := s.callsignTimer.clock length
    timeoutTimer := s.timeoutTimer.clock length
    holdoffTimer := s.holdoffTimer.clock length
    kerchunkTimer := s.kerchunkTimer.clock length
    ackMinTimer := s.ackMinTimer.clock length
    ackDelayTimer := s.ackDelayTimer.clock length
    hangTimer := s.hangTimer.clock length }

/-- `CFM::reset` (FM.cpp 139-156). -/
def reset (s : CFM E) : CFM E :=
  let s := { s with state := FS_LISTENING }
  let s := { s with callsignTimer := s.callsignTimer.stop }
  let s := { s with timeoutTimer := s.timeoutTimer.stop }
  let s := { s with kerchunkTimer := s.kerchunkTimer.stop }
  let s := { s with ackMinTimer := s.ackMinTimer.stop }
  let s := { s with ackDelayTimer := s.ackDelayTimer.stop }
  let s := { s with hangTimer := s.hangTimer.stop }
  let s := { s with ctcssRX := E.ctcssRXReset s.ctcssRX }
  let s := { s with rfAck := E.keyerStop s.rfAck }
  let s := { s with callsign := E.keyerStop s.callsign }
  let s := { s with timeoutTone := E.toneStop s.timeoutTone }
  { s with outputRB := s.outputRB.reset }

/-! ## The per-sample audio path of `CFM::samples` -/

/-- The squelch gate (FM.cpp 101-108): the content sample that enters the
mixer. -/
def gate (currentSample : Int) (s : CFM E) : Int × CFM E :=
  if s.state = FS_RELAYING ∨ s.state = FS_KERCHUNK then
    let r := E.blankingProcess s.blanking currentSample
    let s := { s with blanking := r.2 }
    (toQ15 (r.1 * s.rfAudioBoost), s)
  else
    (0, s)

/-- The acknowledgement addition (FM.cpp 110-111). -/
def mixAck (currentSample : Int) (s : CFM E) : Int × CFM E :=
  if !E.keyerIsRunning s.callsign then
    let r := E.keyerGetHighAudio s.rfAck
    (toQ15 (currentSample + r.1), { s with rfAck := r.2 })
  else
    (currentSample, s)

/-- The identification addition (FM.cpp 113-118). -/
def mixCallsign (currentSample : Int) (s : CFM E) : Int × CFM E :=
  if !E.keyerIsRunning s.rfAck then
    if s.state = FS_LISTENING then
      let r := E.keyerGetHighAudio s.callsign
      (toQ15 (currentSample + r.1), { s with callsign := r.2 })
    else
      let r := E.keyerGetLowAudio s.callsign
      (toQ15 (currentSample + r.1), { s with callsign := r.2 })
  else
    (currentSample, s)

/-- The timeout-tone addition (FM.cpp 120-121). -/
def mixTimeoutTone (currentSample : Int) (s : CFM E) : Int × CFM E :=
  if !E.keyerIsRunning s.callsign && !E.keyerIsRunning s.rfAck then
    let r := E.toneGetAudio s.timeoutTone
    (toQ15 (currentSample + r.1), { s with timeoutTone := r.2 })
  else
    (currentSample, s)

/-- The mixer (FM.cpp 110-121): the three additions in source order. -/
def mix (currentSample : Int) (s : CFM E) : Int × CFM E :=
  let r := mixAck currentSample s
  let r := mixCallsign r.1 r.2
  mixTimeoutTone r.1 r.2

/-- Filtering, CTCSS injection and output (FM.cpp 123-128). -/
def emit (currentSample : Int) (s : CFM E) : CFM E :=
  let f1 := E.filter s.filterStage1 currentSample
  let f2 := E.filter s.filterStage2 f1.1
  let f3 := E.filter s.filterStage3 f2.1
  let s := { s with filterStage1 := f1.2, filterStage2 := f2.2, filterStage3 := f3.2 }
  let t := E.ctcssTXGetAudio s.ctcssTX
  let s := { s with ctcssTX := t.2 }
  let currentSample := toQ15 (f3.1 + t.1)
  if s.modemState = STATE_FM then
    { s with outputRB := s.outputRB.put currentSample }
  else s

/-- Lines 101-128 of the loop body: gate, mixer, filters, output. -/
def audioPath (currentSample : Int) (s : CFM E) : CFM E :=
  let g := gate currentSample s
  let m := mix g.1 g.2
  emit m.1 m.2

/-- How one pass through the loop body of `CFM::samples` ends before the audio
path: by `continue`, by `break`, or by falling through to line 101. -/
inductive Flow where
  | continue_
  | break_
  | through
deriving DecidableEq, Repr

/-- Lines 69-77 of the loop body: level scaling, CTCSS decoding and the delay
line. Returns the decoder's answer and the current sample. The sample is
widened to `q31_t` and shifted left by 8 (times 256), and the division
truncates toward zero (`Int.tdiv`, which yields 0 for a divisor of 0, where
the C++ division is undefined). -/
def frontEnd (sample : Int) (s : CFM E) : CtcssState × Int × CFM E :=
  let currentSample := toQ15 (Int.tdiv (sample * 256) s.rxLevel)
  let r := E.ctcssRXProcess s.ctcssRX currentSample
  let s := { s with ctcssRX := r.2 }
  if !s.useCOS then
    let s := { s with inputRB := s.inputRB.put currentSample }
    let g := s.inputRB.get
    (r.1, g.1.getD currentSample, { s with inputRB := g.2 })
  else
    (r.1, currentSample, s)

/-- Lines 79-99 of the loop body: whether and how the state machine is
evaluated for this sample. `last` is `i == length - 1`. -/
def evaluate (cos : Bool) (ctcssState : CtcssState) (last : Bool) (s : CFM E) :
    Flow × CFM E :=
  if !ctcssState.ready ∧ s.modemState ≠ STATE_FM then
    (Flow.continue_, s)
  else if ctcssState.ready ∧ s.modemState ≠ STATE_FM then
    let s := stateMachine (ctcssState.valid && cos) s
    if s.modemState ≠ STATE_FM then (Flow.continue_, s) else (Flow.through, s)
  else if ctcssState.ready ∧ s.modemState = STATE_FM then
    let s := stateMachine (ctcssState.valid && cos) s
    if s.modemState ≠ STATE_FM then (Flow.break_, s) else (Flow.through, s)
  else if !ctcssState.ready ∧ s.modemState = STATE_FM ∧ last then
    (Flow.through, stateMachine (ctcssState.valid && cos) s)
  else
    (Flow.through, s)

/-- One pass through the loop body of `CFM::samples` (FM.cpp 68-128). The
flag returned is true when the pass ended in `break`. -/
def sampleStep (cos : Bool) (sample : Int) (last : Bool) (s : CFM E) : Bool × CFM E :=
  let f := frontEnd sample s
  let e := evaluate cos f.1 last f.2.2
  match e.1 with
  | Flow.continue_ => (false, e.2)
  | Flow.break_ => (true, e.2)
  | Flow.through => (false, audioPath f.2.1 e.2)

/-- The `for` loop of `CFM::samples` over the samples still to be processed. -/
def samplesLoop (cos : Bool) : List Int → CFM E → CFM E
  | [], s => s
  | x :: rest, s =>
    let r := sampleStep cos x rest.isEmpty s
    if r.1 then r.2 else samplesLoop cos rest r.2

/-- `CFM::samples` (FM.cpp 55-130). The block is the list of its samples;
`length` is the length of that list (at most 255, `length` being a
`uint8_t`). -/
def samples (cos : Bool) (block : List Int) (s : CFM E) : CFM E :=
  let cos := if s.useCOS then (if s.cosInvert then !cos else cos) else true
  let s := clock block.length s
  samplesLoop cos block s

/-! ## Sequences of evaluations -/

/-- A sequence of `stateMachine` evaluations. Each entry is the number of ticks
`CFM::clock` advances the timers before the evaluation, and the `validSignal`
argument of the evaluation. The result lists the controller after each
evaluation. -/
def evaluations : List (Nat × Bool) → CFM E → List (CFM E)
  | [], _ => []
  | (n, v) :: rest, s =>
    let s := stateMachine v (clock n s)
    s :: evaluations rest s

/-- True when, in a sequence of valid-signal evaluations, `m_kerchunkTimer`
has not expired at any of them. -/
def kerchunkUnexpired : List Nat → CFM E → Bool
  | [], _ => true
  | n :: rest, s =>
    !(clock n s).kerchunkTimer.hasExpired &&
      kerchunkUnexpired rest (stateMachine true (clock n s))

/-- A kerchunk burst: a first valid-signal evaluation after `n0` ticks, further
valid-signal evaluations after `ns` ticks each, and a closing evaluation
without valid signal after `m` ticks. -/
def burst (n0 : Nat) (ns : List Nat) (m : Nat) : List (Nat × Bool) :=
  (n0, true) :: (ns.map fun n => (n, true)) ++ [(m, false)]

/-! ## Predicates for the identification-repeat analysis -/

/-- The part of the controller the audio path never writes: state, host mode,
the identification-repeat, holdoff and ack-delay timers, and the debug
output. -/
def control (s : CFM E) : FMState × ModemState × Timer × Timer × Timer × List String :=
  (s.state, s.modemState, s.callsignTimer, s.holdoffTimer, s.ackDelayTimer, s.debug)

/-- Whether `sendCallsign` starts the identification generator, as a function
of the holdoff timer it finds (FM.cpp 458-467). -/
def holdoffAllows (h : Timer) : Bool := !h.isRunning || h.hasExpired

/-- The identification repeat is due: host mode `STATE_FM`, state
`FS_RELAYING`, the identification-repeat timer running with a non-zero period
and expired; the ack-delay timer, if running, has a non-zero duration. `h` is
the holdoff timer and `c` the number of "Send callsign" messages so far. -/
structure RepeatDue (c : Nat) (h : Timer) (s : CFM E) : Prop where
  modem : s.modemState = STATE_FM
  state : s.state = FS_RELAYING
  running : s.callsignTimer.running = true
  period : 0 < s.callsignTimer.timeout
  expired : s.callsignTimer.hasExpired = true
  ackDelay : s.ackDelayTimer.running = true → 0 < s.ackDelayTimer.timeout
  holdoff : s.holdoffTimer = h
  count : s.debug.count "Send callsign" = c

/-- The identification repeat has been served in this block: the
identification-repeat timer has been restarted (running, nothing elapsed), the
controller is in one of the four states reachable from `FS_RELAYING` without a
timer expiring, and the ack-delay timer cannot fire before the next
`CFM::clock`. `c` is the number of "Send callsign" messages so far. -/
structure RepeatServed (c : Nat) (s : CFM E) : Prop where
  modem : s.modemState = STATE_FM
  state : s.state = FS_RELAYING ∨ s.state = FS_RELAYING_WAIT ∨ s.state = FS_TIMEOUT ∨
    s.state = FS_TIMEOUT_WAIT
  running : s.callsignTimer.running = true
  elapsed : s.callsignTimer.elapsed = 0
  period : 0 < s.callsignTimer.timeout
  ackDelay : s.ackDelayTimer.running = true → 0 < s.ackDelayTimer.timeout
  ackDelayFresh : s.state = FS_RELAYING_WAIT ∨ s.state = FS_TIMEOUT_WAIT →
    s.ackDelayTimer.running = true → s.ackDelayTimer.hasExpired = false
  count : s.debug.count "Send callsign" = c

/-! ## Configuration (`setCallsign`, `setAck`, `setMisc`) -/

/-- Modelled from the spec: `setTimeout` stores the configured duration of a
timer, in ticks. How the two arguments of the call make up that duration is the
parameter `Setup.duration`. Neither the running flag nor the elapsed count is
touched. -/
def Timer.setTimeout (t : Timer) (ticks : Nat) : Timer := { t with timeout := ticks }

/-- What the configuration functions need of the collaborators: the duration,
in ticks, that `setTimeout(a, b)` configures, and the `setParams` member
functions; those that validate return their status code with the changed
object. -/
structure Setup (E : Collab) where
  duration : Nat → Nat → Nat
  keyerSetParams : E.Keyer → String → Nat → Nat → Nat → Nat → Nat × E.Keyer
  toneSetParams : E.TimeoutTone → Nat → E.TimeoutTone
  blankingSetParams : E.Blanking → Nat → Nat → E.Blanking
  ctcssRXSetParams : E.CtcssRX → Nat → Nat → Nat → Nat × E.CtcssRX
  ctcssTXSetParams : E.CtcssTX → Nat → Nat → Nat × E.CtcssTX

/-- `CFM::setCallsign` (FM.cpp 158-174). The two times are `uint16_t`. -/
def setCallsign (S : Setup E) (callsign : String)
    (speed frequency time holdoff highLevel lowLevel : Nat)
    (callsignAtStart callsignAtEnd callsignAtLatch : Bool) (s : CFM E) : Nat × CFM E :=
  let s := { s with callsignAtStart := callsignAtStart }
  let s := { s with callsignAtEnd := callsignAtEnd }
  let s := { s with callsignAtLatch := callsignAtLatch }
  let holdoffTime := (holdoff * 60) % 65536
  let callsignTime := (time * 60) % 65536
  let s := { s with holdoffTimer := s.holdoffTimer.setTimeout (S.duration holdoffTime 0) }
  let s := { s with callsignTimer := s.callsignTimer.setTimeout (S.duration callsignTime 0) }
  let s := if 0 < holdoffTime then { s with holdoffTimer := s.holdoffTimer.start } else s
  let r := S.keyerSetParams s.callsign callsign speed frequency highLevel lowLevel
  (r.1, { s with callsign := r.2 })

/-- `CFM::setAck` (FM.cpp 176-184). -/
def setAck (S : Setup E) (rfAck : String) (speed frequency minTime delay level : Nat)
    (s : CFM E) : Nat × CFM E :=
  let s := { s with ackDelayTimer := s.ackDelayTimer.setTimeout (S.duration 0 delay) }
  let s :=
    if 0 < minTime then
      { s with ackMinTimer := s.ackMinTimer.setTimeout (S.duration minTime delay) }
    else s
  let r := S.keyerSetParams s.rfAck rfAck speed frequency level level
  (r.1, { s with rfAck := r.2 })

/-- `CFM::setMisc` (FM.cpp 186-207). Returns the status code and the
controller. -/
def setMisc (S : Setup E)
    (timeout timeoutLevel ctcssFrequency ctcssHighThreshold ctcssLowThreshold ctcssLevel
      kerchunkTime hangTime : Nat)
    (useCOS cosInvert : Bool) (rfAudioBoost maxDev rxLevel : Nat) (s : CFM E) : Nat × CFM E :=
  let s := { s with useCOS := useCOS }
  let s := { s with cosInvert := cosInvert }
  let s := { s with rfAudioBoost := toQ15 rfAudioBoost }
  let s := { s with timeoutTimer := s.timeoutTimer.setTimeout (S.duration timeout 0) }
  let s := { s with kerchunkTimer := s.kerchunkTimer.setTimeout (S.duration kerchunkTime 0) }
  let s := { s with hangTimer := s.hangTimer.setTimeout (S.duration hangTime 0) }
  let s := { s with timeoutTone := S.toneSetParams s.timeoutTone timeoutLevel }
  let s := { s with blanking := S.blankingSetParams s.blanking maxDev timeoutLevel }
  let s := { s with rxLevel := rxLevel }
  let rx := S.ctcssRXSetParams s.ctcssRX ctcssFrequency ctcssHighThreshold ctcssLowThreshold
  let s := { s with ctcssRX := rx.2 }
  if rx.1 ≠ 0 then
    (rx.1, s)
  else
    let tx := S.ctcssTXSetParams s.ctcssTX ctcssFrequency ctcssLevel
    (tx.1, { s with ctcssTX := tx.2 })

/-! ## Sequences of calls -/

/-- A call the host can make on the controller: a `stateMachine` evaluation,
`clock`, `reset`, or one of the three configuration functions. -/
inductive Op where
  | evaluate (validSignal : Bool)
  | clock (length : Nat)
  | reset
  | setCallsign (callsign : String) (speed frequency time holdoff highLevel lowLevel : Nat)
      (callsignAtStart callsignAtEnd callsignAtLatch : Bool)
  | setAck (rfAck : String) (speed frequency minTime delay level : Nat)
  | setMisc (timeout timeoutLevel ctcssFrequency ctcssHighThreshold ctcssLowThreshold
      ctcssLevel kerchunkTime hangTime : Nat) (useCOS cosInvert : Bool)
      (rfAudioBoost maxDev rxLevel : Nat)

/-- The controller after one call. -/
def perform (S : Setup E) : Op → CFM E → CFM E
  | Op.evaluate v, s => stateMachine v s
  | Op.clock n, s => clock n s
  | Op.reset, s => reset s
  | Op.setCallsign c sp f t h hi lo a e l, s => (setCallsign S c sp f t h hi lo a e l s).2
  | Op.setAck a sp f m d l, s => (setAck S a sp f m d l s).2
  | Op.setMisc t tl cf ch cl cv k h u ci b md rx, s =>
    (setMisc S t tl cf ch cl cv k h u ci b md rx s).2

/-- The controller after a sequence of calls, first call first. -/
def performAll (S : Setup E) : List Op → CFM E → CFM E
  | [], s => s
  | op :: rest, s => performAll S rest (perform S op s)

/-- The controller as the constructor leaves it (FM.cpp 23-53): state
`FS_LISTENING`, no timer running. -/
def Constructed (s : CFM E) : Prop :=
  s.state = FS_LISTENING ∧ s.callsignTimer.isRunning = false ∧
  s.timeoutTimer.isRunning = false ∧ s.holdoffTimer.isRunning = false ∧
  s.kerchunkTimer.isRunning = false ∧ s.ackMinTimer.isRunning = false ∧
  s.ackDelayTimer.isRunning = false ∧ s.hangTimer.isRunning = false

/-- Mode/state consistency: outside `FS_LISTENING` the host mode is
`STATE_FM`. -/
def ModeConsistent (s : CFM E) : Prop :=
  s.state ≠ FS_LISTENING → s.modemState = STATE_FM

/-! ## Reference definitions for the numeric and the per-block claims -/

/-- Saturation to the signed 16-bit range, as the specification words it. -/
def clampQ15 (x : Int) : Int := max (-32768) (min 32767 x)

/-- A pass through the loop body of `CFM::samples` in which the state machine
is not evaluated: front end, then the audio path. -/
def quietPass (x : Int) (s : CFM E) : CFM E :=
  let f := frontEnd x s
  audioPath f.2.1 f.2.2

/-- A pass through the loop body of `CFM::samples` in which the state machine
is evaluated once, with `validSignal` = decoder valid flag AND carrier flag,
between the front end and the audio path. -/
def evaluatedPass (cos : Bool) (x : Int) (s : CFM E) : CFM E :=
  let f := frontEnd x s
  audioPath f.2.1 (stateMachine (f.1.valid && cos) f.2.2)

/-- True when the CTCSS decoder reports not-ready for every sample of a block
processed, but for its last sample, by passes without evaluation. -/
def notReadyThroughout : List Int → CFM E → Bool
  | [], _ => true
  | x :: rest, s => !(frontEnd x s).1.ready && notReadyThroughout rest (quietPass x s)

/-! ## The invariants of the state machine -/

/-- Timer/state consistency: the kerchunk timer runs only in `FS_KERCHUNK`,
the ack-delay timer only in `FS_RELAYING_WAIT` or `FS_TIMEOUT_WAIT`, the
transmit-timeout timer only in `FS_KERCHUNK`, `FS_RELAYING` or
`FS_RELAYING_WAIT`. -/
def TimersConsistent (s : CFM E) : Prop :=
  (s.kerchunkTimer.isRunning = true → s.state = FS_KERCHUNK) ∧
  (s.ackDelayTimer.isRunning = true →
    s.state = FS_RELAYING_WAIT ∨ s.state = FS_TIMEOUT_WAIT) ∧
  (s.timeoutTimer.isRunning = true →
    s.state = FS_KERCHUNK ∨ s.state = FS_RELAYING ∨ s.state = FS_RELAYING_WAIT)

/-- The hang timer is disabled: its configured duration is 0 and it is not
running. This is the condition of the hang timer after `m_hangTimer.start()`
under the timer contract "a duration of 0 means the timer is never started". -/
def HangDisabled (s : CFM E) : Prop :=
  s.hangTimer.getTimeout = 0 ∧ s.hangTimer.isRunning = false

/-- The transition table of the state machine: `allowedEdge a v b` is true when
an evaluation with `validSignal = v` may move the controller from state `a` to
the different state `b`. -/
def allowedEdge : FMState → Bool → FMState → Bool
  | FS_LISTENING, true, FS_KERCHUNK => true
  | FS_LISTENING, true, FS_RELAYING => true
  | FS_KERCHUNK, true, FS_RELAYING => true
  | FS_KERCHUNK, false, FS_LISTENING => true
  | FS_RELAYING, true, FS_TIMEOUT => true
  | FS_RELAYING, false, FS_RELAYING_WAIT => true
  | FS_RELAYING_WAIT, true, FS_RELAYING => true
  | FS_RELAYING_WAIT, false, FS_HANG => true
  | FS_HANG, true, FS_RELAYING => true
  | FS_HANG, false, FS_LISTENING => true
  | FS_TIMEOUT, false, FS_TIMEOUT_WAIT => true
  | FS_TIMEOUT_WAIT, true, FS_TIMEOUT => true
  | FS_TIMEOUT_WAIT, false, FS_HANG => true
  | _, _, _ => false

/-! ## A concrete set of collaborators

Used to evaluate the controller on concrete inputs. The keyer is a pair of
flags (wanted, running): `start` requests playback, the first audio pull after
a request begins it, and the audio delivered is 1000 (high) or 500 (low). -/

/-- A small concrete keyer state. -/
structure SimKeyer where
  wanted : Bool
  running : Bool
deriving DecidableEq, Repr

/-- Concrete collaborators for evaluation. -/
def simCollab : Collab where
  Keyer := SimKeyer
  TimeoutTone := Bool
  CtcssRX := Unit
  CtcssTX := Unit
  Blanking := Unit
  Filter := Unit
  keyerStart := fun k => { k with wanted := true }
  keyerStop := fun _ => { wanted := false, running := false }
  keyerIsRunning := fun k => k.running
  keyerIsWanted := fun k => k.wanted
  keyerGetHighAudio := fun k =>
    if k.wanted || k.running then (1000, { k with running := true }) else (0, k)
  keyerGetLowAudio := fun k =>
    if k.wanted || k.running then (500, { k with running := true }) else (0, k)
  toneStart := fun _ => true
  toneStop := fun _ => false
  toneGetAudio := fun t => (if t then 700 else 0, t)
  ctcssRXProcess := fun r x => ({ ready := true, valid := decide (0 ≤ x) }, r)
  ctcssRXReset := fun r => r
  ctcssTXGetAudio := fun t => (0, t)
  blankingProcess := fun b x => (x, b)
  filter := fun f x => (x, f)

/-- The controller as the constructor leaves it (FM.cpp 23-53), over the
concrete collaborators, with the host in `STATE_IDLE`. -/
def simInit : CFM simCollab where
  callsign := { wanted := false, running := false }
  rfAck := { wanted := false, running := false }
  ctcssRX := ()
  ctcssTX := ()
  timeoutTone := false
  state := FS_LISTENING
  callsignAtStart := false
  callsignAtEnd := false
  callsignAtLatch := false
  callsignTimer := { timeout := 0, elapsed := 0, running := false }
  timeoutTimer := { timeout := 0, elapsed := 0, running := false }
  holdoffTimer := { timeout := 0, elapsed := 0, running := false }
  kerchunkTimer := { timeout := 0, elapsed := 0, running := false }
  ackMinTimer := { timeout := 0, elapsed := 0, running := false }
  ackDelayTimer := { timeout := 0, elapsed := 0, running := false }
  hangTimer := { timeout := 0, elapsed := 0, running := false }
  filterStage1 := ()
  filterStage2 := ()
  filterStage3 := ()
  blanking := ()
  useCOS := true
  cosInvert := false
  rfAudioBoost := 1
  rxLevel := 1
  inputRB := { length := 4800, data := List.replicate 2400 0 }
  outputRB := { length := 2400, data := [] }
  modemState := STATE_IDLE
  decode := false
  adcDetection := false
  debug := []

/-- The constructed controller with the identification generator running. -/
def simIdRunning : CFM simCollab :=
  { simInit with callsign := SimKeyer.mk true true }

/-- The constructed controller configured with a kerchunk time of 500 ticks
and a transmit timeout of 4000 ticks. -/
def simKerchunk : CFM simCollab :=
  { simInit with
    kerchunkTimer := { timeout := 500, elapsed := 0, running := false }
    timeoutTimer := { timeout := 4000, elapsed := 0, running := false } }

/-- A controller in `FS_RELAYING` whose transmit timeout (4000 ticks) has
expired, host mode `STATE_FM`. -/
def simTimedOut : CFM simCollab :=
  { simInit with
    state := FS_RELAYING
    modemState := STATE_FM
    timeoutTimer := { timeout := 4000, elapsed := 4100, running := true }
    ackMinTimer := { timeout := 96000, elapsed := 4100, running := true } }

/-- A controller in `FS_RELAYING_WAIT` whose acknowledgement delay (480 ticks)
has expired while the minimum-ack timer (96000 ticks) is still unexpired. -/
def simShortOver : CFM simCollab :=
  { simInit with
    state := FS_RELAYING_WAIT
    modemState := STATE_FM
    hangTimer := { timeout := 72000, elapsed := 0, running := false }
    ackDelayTimer := { timeout := 480, elapsed := 500, running := true }
    ackMinTimer := { timeout := 96000, elapsed := 9000, running := true } }

/-- A controller in `FS_HANG` with every timer running, the holdoff timer
included, both keyers and the timeout tone active and audio queued for
output. -/
def simBusy : CFM simCollab :=
  { simInit with
    state := FS_HANG
    modemState := STATE_FM
    callsign := SimKeyer.mk true true
    rfAck := SimKeyer.mk true false
    timeoutTone := true
    callsignTimer := { timeout := 14400, elapsed := 7, running := true }
    timeoutTimer := { timeout := 4000, elapsed := 7, running := true }
    holdoffTimer := { timeout := 600, elapsed := 7, running := true }
    kerchunkTimer := { timeout := 500, elapsed := 7, running := true }
    ackMinTimer := { timeout := 96000, elapsed := 7, running := true }
    ackDelayTimer := { timeout := 480, elapsed := 7, running := true }
    hangTimer := { timeout := 72000, elapsed := 7, running := true }
    outputRB := { length := 2400, data := [12, -7, 3] } }

/-- A controller relaying in host mode `STATE_FM` whose identification-repeat
timer (14400 ticks) has expired while the holdoff timer (600 ticks) is running
and unexpired. -/
def simRepeatHeld : CFM simCollab :=
  { simInit with
    state := FS_RELAYING
    modemState := STATE_FM
    callsignTimer := { timeout := 14400, elapsed := 15000, running := true }
    holdoffTimer := { timeout := 600, elapsed := 7, running := true } }

/-- The same controller with the holdoff disabled (duration 0, not running). -/
def simRepeatDue : CFM simCollab :=
  { simInit with
    state := FS_RELAYING
    modemState := STATE_FM
    callsignTimer := { timeout := 14400, elapsed := 15000, running := true } }

/-- A controller relaying in host mode `STATE_FM`, holdoff disabled, whose
identification-repeat timer (14400 ticks) is one tick short of expiring: it
expires under the ticks of the next block. -/
def simRepeatTriggering : CFM simCollab :=
  { simInit with
    state := FS_RELAYING
    modemState := STATE_FM
    callsignTimer := { timeout := 14400, elapsed := 14399, running := true } }

/-- A controller in `FS_HANG`, host mode `STATE_FM`, whose hang time (72000
ticks) has expired; no identification or acknowledgement is wanted. -/
def simHangOver : CFM simCollab :=
  { simInit with
    state := FS_HANG
    modemState := STATE_FM
    callsignTimer := { timeout := 14400, elapsed := 9000, running := true }
    hangTimer := { timeout := 72000, elapsed := 72001, running := true } }

/-- Concrete configuration collaborators: 24000 ticks to the second and 24 to
the millisecond; the CTCSS decoder rejects frequency 0 with code 1. -/
def simSetup : Setup simCollab where
  duration := fun a b => a * 24000 + b * 24
  keyerSetParams := fun k _ _ _ _ _ => (0, k)
  toneSetParams := fun t _ => t
  blankingSetParams := fun b _ _ => b
  ctcssRXSetParams := fun r f _ _ => (if f = 0 then 1 else 0, r)
  ctcssTXSetParams := fun t _ _ => (0, t)

/-- The concrete collaborators with a CTCSS decoder that is never ready. -/
def simQuiet : Collab :=
  { simCollab with
    ctcssRXProcess := fun r x => ({ ready := false, valid := decide (0 ≤ x) }, r) }

/-- A controller over `simQuiet`, relaying in host mode `STATE_FM`, with a
transmit timeout of 4000 ticks of which 3990 have elapsed. -/
def simQuietRelaying : CFM simQuiet where
  callsign := SimKeyer.mk false false
  rfAck := SimKeyer.mk false false
  ctcssRX := ()
  ctcssTX := ()
  timeoutTone := false
  state := FS_RELAYING
  callsignAtStart := false
  callsignAtEnd := false
  callsignAtLatch := false
  callsignTimer := { timeout := 0, elapsed := 0, running := false }
  timeoutTimer := { timeout := 4000, elapsed := 3990, running := true }
  holdoffTimer := { timeout := 0, elapsed := 0, running := false }
  kerchunkTimer := { timeout := 0, elapsed := 0, running := false }
  ackMinTimer := { timeout := 0, elapsed := 0, running := false }
  ackDelayTimer := { timeout := 0, elapsed := 0, running := false }
  hangTimer := { timeout := 0, elapsed := 0, running := false }
  filterStage1 := ()
  filterStage2 := ()
  filterStage3 := ()
  blanking := ()
  useCOS := true
  cosInvert := false
  rfAudioBoost := 1
  rxLevel := 128
  inputRB := { length := 4800, data := List.replicate 2400 0 }
  outputRB := { length := 2400, data := [] }
  modemState := STATE_FM
  decode := true
  adcDetection := true
  debug := []

/-- A controller relaying with an audio boost of 2. -/
def simBoost : CFM simCollab :=
  { simInit with state := FS_RELAYING, modemState := STATE_FM, rfAudioBoost := 2 }

/-- The constructed controller with the holdoff timer (600 ticks) running and
expired. -/
def simHoldoffOver : CFM simCollab :=
  { simInit with holdoffTimer := { timeout := 600, elapsed := 700, running := true } }

/-- A controller about to enter `FS_HANG` with a hang time of 0: in
`FS_RELAYING_WAIT`, the ack-delay timer (480 ticks) expired, the hang timer of
duration 0 not running. -/
def simZeroHang : CFM simCollab :=
  { simInit with
    state := FS_RELAYING_WAIT
    modemState := STATE_FM
    ackDelayTimer := { timeout := 480, elapsed := 500, running := true } }

/-! ## Theorems -/

/-- C1: in `CFM::samples`, when the controller state at the gate is neither
`FS_RELAYING` nor `FS_KERCHUNK`, the content sample that enters the mixer is
exactly 0 and the gate changes nothing, whatever the input sample, `rxLevel`,
the blanking limiter and `rfAudioBoost` are. -/
theorem gate_silent_outside_relay (s : CFM E) (currentSample : Int)
    (hr : s.state ≠ FS_RELAYING) (hk : s.state ≠ FS_KERCHUNK) :
    gate currentSample s = (0, s) ∧
      audioPath currentSample s = emit (mix 0 s).1 (mix 0 s).2 := by
  have hg : gate currentSample s = (0, s) := by
    unfold gate
    rw [if_neg]
    intro h
    rcases h with h | h
    · exact hr h
    · exact hk h
  exact ⟨hg, by simp [audioPath, hg]⟩

/-- Witness for C1: a listening controller with boost 200 and a full-scale
input sample still feeds 0 to the mixer. -/
theorem gate_silent_outside_relay_witness :
    gate 32767 { simInit with rfAudioBoost := 200 } = (0, { simInit with rfAudioBoost := 200 }) ∧
      audioPath 32767 { simInit with rfAudioBoost := 200 } =
        emit (mix 0 { simInit with rfAudioBoost := 200 }).1
          (mix 0 { simInit with rfAudioBoost := 200 }).2 :=
  gate_silent_outside_relay { simInit with rfAudioBoost := 200 } 32767 (by decide) (by decide)

/-- C2: priority law of the mixer (FM.cpp 110-121). Each `isRunning` is
read where the source reads it. If the identification generator reports
running, the acknowledgement addition adds nothing and does not pull the
acknowledgement generator. If the acknowledgement generator reports running,
the identification addition (high or low) adds nothing. If either generator
reports running, the timeout-tone addition adds nothing; so timeout-tone audio
enters the sample only when neither reports running. -/
theorem mixer_priority (s : CFM E) (x : Int) :
    (E.keyerIsRunning s.callsign = true → mixAck x s = (x, s)) ∧
    (E.keyerIsRunning s.rfAck = true → mixCallsign x s = (x, s)) ∧
    (E.keyerIsRunning s.callsign = true ∨ E.keyerIsRunning s.rfAck = true →
      mixTimeoutTone x s = (x, s)) ∧
    (mixTimeoutTone x s ≠ (x, s) →
      E.keyerIsRunning s.callsign = false ∧ E.keyerIsRunning s.rfAck = false) ∧
    mix x s = mixTimeoutTone (mixCallsign (mixAck x s).1 (mixAck x s).2).1
      (mixCallsign (mixAck x s).1 (mixAck x s).2).2 := by
  refine ⟨?_, ?_, ?_, ?_, rfl⟩
  · intro h
    simp [mixAck, h]
  · intro h
    simp [mixCallsign, h]
  · intro h
    rcases h with h | h <;> simp [mixTimeoutTone, h]
  · intro h
    by_contra hc
    apply h
    cases hcs : E.keyerIsRunning s.callsign <;> cases hra : E.keyerIsRunning s.rfAck <;>
      simp_all [mixTimeoutTone]

/-- Witness for C2: with the identification generator running, the
acknowledgement and timeout-tone additions leave the sample 5 as it is. -/
theorem mixer_priority_witness :
    mixAck 5 simIdRunning =
        (5, simIdRunning) ∧
      mixTimeoutTone 5 simIdRunning =
        (5, simIdRunning) :=
  ⟨(mixer_priority simIdRunning 5).1 rfl,
   (mixer_priority simIdRunning 5).2.2.1
     (Or.inl rfl)⟩

/-! ### Frame lemmas -/

/-- Into a buffer with room for them, `putSilence n` appends exactly `n` zero
samples. -/
theorem putSilence_append (n : Nat) (rb : RingBuffer) (h : rb.data.length + n ≤ rb.length) :
    putSilence n rb = { rb with data := rb.data ++ List.replicate n 0 } := by
  induction n generalizing rb with
  | zero => simp [putSilence]
  | succ n ih =>
    have hlt : rb.data.length < rb.length := by omega
    have hput : rb.put 0 = { rb with data := rb.data ++ [0] } := by
      simp [RingBuffer.put, hlt]
    rw [putSilence, hput, ih]
    · simp [List.replicate_succ]
    · simp
      omega

/-- What `sendCallsign` leaves alone. -/
theorem sendCallsign_frame (s : CFM E) :
    (sendCallsign s).state = s.state ∧ (sendCallsign s).modemState = s.modemState ∧
    (sendCallsign s).outputRB = s.outputRB ∧ (sendCallsign s).kerchunkTimer = s.kerchunkTimer ∧
    (sendCallsign s).timeoutTimer = s.timeoutTimer ∧ (sendCallsign s).ackMinTimer = s.ackMinTimer ∧
    (sendCallsign s).ackDelayTimer = s.ackDelayTimer ∧ (sendCallsign s).hangTimer = s.hangTimer ∧
    (sendCallsign s).callsignTimer = s.callsignTimer ∧ (sendCallsign s).rfAck = s.rfAck ∧
    (sendCallsign s).timeoutTone = s.timeoutTone := by
  unfold sendCallsign
  split
  · split <;> simp [DEBUG1]
  · simp [DEBUG1]

/-- What `insertSilence` leaves alone: everything but the output ring
buffer. -/
theorem insertSilence_frame (ms : Nat) (s : CFM E) :
    (insertSilence ms s).state = s.state ∧ (insertSilence ms s).modemState = s.modemState ∧
    (insertSilence ms s).kerchunkTimer = s.kerchunkTimer ∧
    (insertSilence ms s).timeoutTimer = s.timeoutTimer ∧
    (insertSilence ms s).ackMinTimer = s.ackMinTimer ∧
    (insertSilence ms s).ackDelayTimer = s.ackDelayTimer ∧
    (insertSilence ms s).hangTimer = s.hangTimer ∧
    (insertSilence ms s).callsignTimer = s.callsignTimer ∧
    (insertSilence ms s).holdoffTimer = s.holdoffTimer ∧
    (insertSilence ms s).debug = s.debug ∧
    (insertSilence ms s).outputRB = putSilence (ms * 24) s.outputRB :=
  ⟨rfl, rfl, rfl, rfl, rfl, rfl, rfl, rfl, rfl, rfl, rfl⟩

/-- The debug messages `sendCallsign` writes are "Send callsign" only. -/
theorem sendCallsign_count (s : CFM E) (msg : String) (h : msg ≠ "Send callsign") :
    (sendCallsign s).debug.count msg = s.debug.count msg := by
  have h2 : ("Send callsign" == msg) = false := by
    simpa using fun e => h e.symm
  unfold sendCallsign
  split
  · split <;> simp [DEBUG1, List.count_cons, h2]
  · simp [DEBUG1, List.count_cons, h2]

/-- What the identification-repeat check leaves alone. -/
theorem callsignRepeat_frame (s : CFM E) :
    (callsignRepeat s).state = s.state ∧ (callsignRepeat s).modemState = s.modemState ∧
    (callsignRepeat s).outputRB = s.outputRB ∧
    (callsignRepeat s).kerchunkTimer = s.kerchunkTimer ∧
    (callsignRepeat s).timeoutTimer = s.timeoutTimer ∧
    (callsignRepeat s).ackMinTimer = s.ackMinTimer ∧
    (callsignRepeat s).ackDelayTimer = s.ackDelayTimer ∧
    (callsignRepeat s).hangTimer = s.hangTimer ∧
    (callsignRepeat s).rfAck = s.rfAck ∧ (callsignRepeat s).timeoutTone = s.timeoutTone := by
  unfold callsignRepeat
  split
  · simp [sendCallsign_frame]
  · simp

/-- The debug messages the identification-repeat check writes are "Send
callsign" only. -/
theorem callsignRepeat_count (s : CFM E) (msg : String) (h : msg ≠ "Send callsign") :
    (callsignRepeat s).debug.count msg = s.debug.count msg := by
  unfold callsignRepeat
  split
  · simp [sendCallsign_count _ _ h]
  · rfl

/-- Outside `FS_LISTENING` the demotion does nothing. -/
theorem demote_not_listening (s : CFM E) (h : s.state ≠ FS_LISTENING) : demote s = s := by
  simp [demote, h]

/-- The demotion never changes the controller state, and never sets a timer
running. -/
theorem demote_frame (s : CFM E) :
    (demote s).state = s.state ∧
    ((demote s).timeoutTimer = s.timeoutTimer ∨ (demote s).timeoutTimer = s.timeoutTimer.stop) := by
  unfold demote
  split
  · split
    · simp [DEBUG1]
    · simp
  · simp

/-- `CFM::clock` changes neither the state nor the running flag of a timer. -/
theorem clock_frame (n : Nat) (s : CFM E) :
    (clock n s).state = s.state ∧
    (clock n s).timeoutTimer.running = s.timeoutTimer.running ∧
    (clock n s).kerchunkTimer.timeout = s.kerchunkTimer.timeout := by
  refine ⟨rfl, ?_, ?_⟩
  · show (s.timeoutTimer.clock n).running = _
    unfold Timer.clock
    split <;> rfl
  · show (s.kerchunkTimer.clock n).timeout = _
    unfold Timer.clock
    split <;> rfl

/-- Unfolding of `evaluations` at the first evaluation. -/
theorem evaluations_cons (n : Nat) (v : Bool) (rest : List (Nat × Bool)) (s : CFM E) :
    evaluations ((n, v) :: rest) s =
      stateMachine v (clock n s) :: evaluations rest (stateMachine v (clock n s)) := rfl

/-- The valid-signal branch of `listeningState` is its three parts in source
order. -/
theorem listeningState_valid_eq (s : CFM E) :
    listeningState true s = listeningCommit (insertSilence 50 (listeningEntry s)) := rfl

/-- What `listeningEntry` does to the state and the timers. -/
theorem listeningEntry_frame (s : CFM E) :
    (listeningEntry s).state =
      (if 0 < s.kerchunkTimer.timeout then FS_KERCHUNK else FS_RELAYING) ∧
    (listeningEntry s).kerchunkTimer =
      (if 0 < s.kerchunkTimer.timeout then s.kerchunkTimer.start else s.kerchunkTimer) ∧
    (listeningEntry s).timeoutTimer = s.timeoutTimer ∧
    (listeningEntry s).ackMinTimer = s.ackMinTimer ∧
    (listeningEntry s).callsignTimer = s.callsignTimer ∧
    (listeningEntry s).ackDelayTimer = s.ackDelayTimer ∧
    (listeningEntry s).hangTimer = s.hangTimer ∧
    (listeningEntry s).outputRB = s.outputRB := by
  rcases Bool.eq_false_or_eq_true s.callsignAtStart with h1 | h1 <;>
    rcases Bool.eq_false_or_eq_true s.callsignAtLatch with h2 | h2 <;>
    by_cases hk : 0 < s.kerchunkTimer.timeout <;>
    simp [listeningEntry, Timer.getTimeout, hk, h1, h2, sendCallsign_frame, DEBUG1]

/-- What `listeningCommit` does to the state, the host mode, the control lines,
the timers and the debug output. -/
theorem listeningCommit_frame (s : CFM E) :
    (listeningCommit s).modemState = STATE_FM ∧
    (listeningCommit s).state = s.state ∧
    (listeningCommit s).kerchunkTimer = s.kerchunkTimer ∧
    (listeningCommit s).timeoutTimer = s.timeoutTimer.start ∧
    (listeningCommit s).ackMinTimer = s.ackMinTimer.start ∧
    (listeningCommit s).callsignTimer = s.callsignTimer.start ∧
    (listeningCommit s).ackDelayTimer = s.ackDelayTimer ∧
    (listeningCommit s).hangTimer = s.hangTimer ∧
    (listeningCommit s).outputRB = s.outputRB ∧
    (listeningCommit s).decode = true ∧ (listeningCommit s).adcDetection = true ∧
    (listeningCommit s).debug = s.debug ++ ["Change to STATE_FM"] :=
  ⟨rfl, rfl, rfl, rfl, rfl, rfl, rfl, rfl, rfl, rfl, rfl, rfl⟩

/-- What a valid-signal evaluation of `listeningState` (FM.cpp 264-289) does to
the state, the host mode, the control lines, the timers and the output ring
buffer. Proofs about `listeningState` go through this statement; the silence
loop is never unfolded. -/
theorem listeningState_valid (s : CFM E) :
    (listeningState true s).modemState = STATE_FM ∧
    (listeningState true s).state =
      (if 0 < s.kerchunkTimer.timeout then FS_KERCHUNK else FS_RELAYING) ∧
    (listeningState true s).kerchunkTimer =
      (if 0 < s.kerchunkTimer.timeout then s.kerchunkTimer.start else s.kerchunkTimer) ∧
    (listeningState true s).timeoutTimer = s.timeoutTimer.start ∧
    (listeningState true s).ackMinTimer = s.ackMinTimer.start ∧
    (listeningState true s).callsignTimer = s.callsignTimer.start ∧
    (listeningState true s).ackDelayTimer = s.ackDelayTimer ∧
    (listeningState true s).hangTimer = s.hangTimer ∧
    (listeningState true s).outputRB = putSilence (50 * 24) s.outputRB ∧
    (listeningState true s).decode = true ∧ (listeningState true s).adcDetection = true := by
  have hc := listeningCommit_frame (insertSilence 50 (listeningEntry s))
  have hi := insertSilence_frame 50 (listeningEntry s)
  have he := listeningEntry_frame s
  rw [listeningState_valid_eq]
  refine ⟨hc.1, ?_, ?_, ?_, ?_, ?_, ?_, ?_, ?_, hc.2.2.2.2.2.2.2.2.2.1,
    hc.2.2.2.2.2.2.2.2.2.2.1⟩
  · rw [hc.2.1, hi.1, he.1]
  · rw [hc.2.2.1, hi.2.2.1, he.2.1]
  · rw [hc.2.2.2.1, hi.2.2.2.1, he.2.2.1]
  · rw [hc.2.2.2.2.1, hi.2.2.2.2.1, he.2.2.2.1]
  · rw [hc.2.2.2.2.2.1, hi.2.2.2.2.2.2.2.1, he.2.2.2.2.1]
  · rw [hc.2.2.2.2.2.2.1, hi.2.2.2.2.2.1, he.2.2.2.2.2.1]
  · rw [hc.2.2.2.2.2.2.2.1, hi.2.2.2.2.2.2.1, he.2.2.2.2.2.2.1]
  · rw [hc.2.2.2.2.2.2.2.2.1, hi.2.2.2.2.2.2.2.2.2.2, he.2.2.2.2.2.2.2]

/-- With no kerchunk time configured, a valid-signal evaluation of
`listeningState` writes no "State to KERCHUNK". -/
theorem listeningState_valid_debug (s : CFM E) (hk : s.kerchunkTimer.timeout = 0) :
    (listeningState true s).debug.count "State to KERCHUNK" =
      s.debug.count "State to KERCHUNK" := by
  have he : (listeningEntry s).debug.count "State to KERCHUNK" =
      s.debug.count "State to KERCHUNK" := by
    have hk2 : ¬ 0 < s.kerchunkTimer.getTimeout := by
      unfold Timer.getTimeout
      omega
    rcases Bool.eq_false_or_eq_true s.callsignAtStart with h1 | h1 <;>
      simp [listeningEntry, hk2, h1, sendCallsign_count, DEBUG1, List.count_cons]
  rw [listeningState_valid_eq,
    (listeningCommit_frame (insertSilence 50 (listeningEntry s))).2.2.2.2.2.2.2.2.2.2.2,
    (insertSilence_frame 50 (listeningEntry s)).2.2.2.2.2.2.2.2.2.1, List.count_append, he]
  simp [List.count_cons]

/-- In `FS_LISTENING` with a valid signal, `stateMachine` is `listeningState`:
the state it leaves is not `FS_LISTENING`, so no demotion follows. -/
theorem stateMachine_listening_valid (s : CFM E) (hs : s.state = FS_LISTENING) :
    stateMachine true s = listeningState true s := by
  have hd : dispatch true s = listeningState true s := by
    unfold dispatch
    rw [hs]
  unfold stateMachine
  rw [hd]
  apply demote_not_listening
  rw [(listeningState_valid s).2.1]
  split <;> decide

/-! ### Scenario 1 -/

/-- C3 (Scenario 1): from the state left by `reset`, with kerchunk duration 0
and the output ring buffer of the constructor (2400 samples), one
`stateMachine` evaluation with a valid signal leaves the state `FS_RELAYING`
(the debug output gains no "State to KERCHUNK"), sets the host modem mode to
`STATE_FM`, and leaves exactly 1200 zero samples in the output ring buffer. -/
theorem scenario1_listening_to_relaying (s : CFM E)
    (hk : s.kerchunkTimer.timeout = 0) (hcap : s.outputRB.length = 2400) :
    (reset s).state = FS_LISTENING ∧ (reset s).outputRB.data = [] ∧
    (stateMachine true (reset s)).state = FS_RELAYING ∧
    (stateMachine true (reset s)).modemState = STATE_FM ∧
    (stateMachine true (reset s)).outputRB.data = List.replicate 1200 0 ∧
    (stateMachine true (reset s)).debug.count "State to KERCHUNK" =
      s.debug.count "State to KERCHUNK" := by
  have hsm : stateMachine true (reset s) = listeningState true (reset s) :=
    stateMachine_listening_valid (reset s) rfl
  have hL := listeningState_valid (reset s)
  have hk2 : ¬ 0 < (reset s).kerchunkTimer.timeout := by
    show ¬ 0 < s.kerchunkTimer.timeout
    omega
  rw [hsm]
  refine ⟨rfl, rfl, ?_, hL.1, ?_, ?_⟩
  · rw [hL.2.1, if_neg hk2]
  · rw [hL.2.2.2.2.2.2.2.2.1, putSilence_append]
    · rfl
    · show 0 + 50 * 24 ≤ s.outputRB.length
      omega
  · exact listeningState_valid_debug (reset s) hk

/-- Witness for C3: the constructed controller (kerchunk duration 0, output
buffer of 2400 samples). -/
theorem scenario1_listening_to_relaying_witness :
    (stateMachine true (reset simInit)).state = FS_RELAYING ∧
    (stateMachine true (reset simInit)).modemState = STATE_FM ∧
    (stateMachine true (reset simInit)).outputRB.data = List.replicate 1200 0 :=
  ⟨(scenario1_listening_to_relaying simInit rfl rfl).2.2.1,
   (scenario1_listening_to_relaying simInit rfl rfl).2.2.2.1,
   (scenario1_listening_to_relaying simInit rfl rfl).2.2.2.2.1⟩

/-! ### Scenario 2 -/

/-- First step of a burst: from `FS_LISTENING` with a kerchunk duration, a
valid-signal evaluation enters `FS_KERCHUNK`, starts the kerchunk timer and
(through `beginRelaying`) the transmit-timeout timer. -/
theorem listening_valid_kerchunk (s : CFM E) (hs : s.state = FS_LISTENING)
    (hk : 0 < s.kerchunkTimer.timeout) :
    (stateMachine true s).state = FS_KERCHUNK ∧
    (stateMachine true s).kerchunkTimer = s.kerchunkTimer.start ∧
    (stateMachine true s).timeoutTimer = s.timeoutTimer.start := by
  have hL := listeningState_valid s
  rw [stateMachine_listening_valid s hs]
  refine ⟨?_, ?_, hL.2.2.2.1⟩
  · rw [hL.2.1, if_pos hk]
  · rw [hL.2.2.1, if_pos hk]

/-- In `FS_KERCHUNK`, a valid-signal evaluation before the kerchunk timer
expires changes nothing. -/
theorem kerchunk_valid_unexpired (s : CFM E) (hs : s.state = FS_KERCHUNK)
    (hx : s.kerchunkTimer.hasExpired = false) : stateMachine true s = s := by
  simp [stateMachine, dispatch, demote, kerchunkState, hs, hx]

/-- In `FS_KERCHUNK`, an evaluation without valid signal reverts to
`FS_LISTENING` and stops the transmit-timeout timer. -/
theorem kerchunk_invalid (s : CFM E) (hs : s.state = FS_KERCHUNK) :
    (stateMachine false s).state = FS_LISTENING ∧
    (stateMachine false s).timeoutTimer.isRunning = false := by
  have hd : (dispatch false s).state = FS_LISTENING ∧
      (dispatch false s).timeoutTimer.running = false := by
    simp [dispatch, kerchunkState, hs, DEBUG1, Timer.stop]
  have hf := demote_frame (dispatch false s)
  refine ⟨by rw [stateMachine, hf.1, hd.1], ?_⟩
  rcases hf.2 with h | h
  · rw [stateMachine, h, Timer.isRunning, hd.2]
  · rw [stateMachine, h]
    rfl

/-- The valid-signal part of a burst, once in `FS_KERCHUNK`: every evaluation
leaves the controller in `FS_KERCHUNK` with the transmit-timeout timer as it
was, and so does the state the closing evaluation starts from. -/
theorem kerchunk_hold (ns : List Nat) (m : Nat) (s : CFM E) (hs : s.state = FS_KERCHUNK)
    (hx : kerchunkUnexpired ns s = true) :
    (evaluations ((ns.map fun n => (n, true)) ++ [(m, false)]) s).map (fun c => c.state) =
        List.replicate ns.length FS_KERCHUNK ++ [FS_LISTENING] ∧
    (evaluations ((ns.map fun n => (n, true)) ++ [(m, false)]) s).map
        (fun c => c.timeoutTimer.isRunning) =
        List.replicate ns.length s.timeoutTimer.running ++ [false] := by
  induction ns generalizing s with
  | nil =>
    have h := kerchunk_invalid (clock m s) (by rw [(clock_frame m s).1, hs])
    simp [evaluations, h.1, h.2]
  | cons n ns ih =>
    simp only [kerchunkUnexpired, Bool.and_eq_true, Bool.not_eq_true'] at hx
    have hc : (clock n s).state = FS_KERCHUNK := by rw [(clock_frame n s).1, hs]
    have hfix := kerchunk_valid_unexpired (clock n s) hc hx.1
    rw [hfix] at hx
    have h := ih (clock n s) hc hx.2
    have hstep : evaluations (((n :: ns).map fun n => (n, true)) ++ [(m, false)]) s =
        clock n s :: evaluations ((ns.map fun n => (n, true)) ++ [(m, false)]) (clock n s) := by
      rw [List.map_cons, List.cons_append, evaluations_cons, hfix]
    rw [hstep, List.map_cons, List.map_cons, h.1, h.2, (clock_frame n s).2.1, hc]
    simp [Timer.isRunning, (clock_frame n s).2.1, List.replicate_succ]

/-- C4 (Scenario 2, state path): from `FS_LISTENING` with a kerchunk duration,
a burst of one or more valid-signal evaluations during which the kerchunk timer
has not expired, closed by an evaluation without valid signal, visits
`FS_LISTENING`, then `FS_KERCHUNK` after every valid evaluation, then
`FS_LISTENING`; `FS_RELAYING` is not among the visited states. -/
theorem scenario2_state_path (s : CFM E) (n0 m : Nat) (ns : List Nat)
    (hs : s.state = FS_LISTENING) (hk : 0 < s.kerchunkTimer.timeout)
    (hx : kerchunkUnexpired ns (stateMachine true (clock n0 s)) = true) :
    s.state :: (evaluations (burst n0 ns m) s).map (fun c => c.state) =
        FS_LISTENING :: List.replicate (ns.length + 1) FS_KERCHUNK ++ [FS_LISTENING] ∧
    FS_RELAYING ∉ s.state :: (evaluations (burst n0 ns m) s).map (fun c => c.state) := by
  have h1 := listening_valid_kerchunk (clock n0 s) (by rw [(clock_frame n0 s).1, hs])
    (by rw [(clock_frame n0 s).2.2]; exact hk)
  have h2 := kerchunk_hold ns m (stateMachine true (clock n0 s)) h1.1 hx
  have hpath : s.state :: (evaluations (burst n0 ns m) s).map (fun c => c.state) =
      FS_LISTENING :: List.replicate (ns.length + 1) FS_KERCHUNK ++ [FS_LISTENING] := by
    rw [burst, List.cons_append, evaluations_cons, List.map_cons, h2.1, h1.1, hs,
      List.replicate_succ]
    rfl
  refine ⟨hpath, ?_⟩
  rw [hpath]
  simp [List.mem_replicate]

/-- Witness for C4: kerchunk time 500 ticks, three valid evaluations 100 ticks
apart, then loss of signal. -/
theorem scenario2_state_path_witness :
    simKerchunk.state :: (evaluations (burst 20 [100, 100] 100) simKerchunk).map
        (fun c => c.state) =
      FS_LISTENING :: List.replicate 3 FS_KERCHUNK ++ [FS_LISTENING] :=
  (scenario2_state_path simKerchunk 20 100 [100, 100] rfl (by decide) (by decide)).1

/-- C5, counterexample: kerchunk time 500 ticks, transmit timeout 4000 ticks,
controller listening; three valid evaluations with the kerchunk timer
unexpired, then loss of signal. The transmit-timeout timer is running after
each of the three valid evaluations. -/
theorem scenario2_timeout_timer_runs :
    simKerchunk.state = FS_LISTENING ∧ 0 < simKerchunk.kerchunkTimer.timeout ∧
    0 < simKerchunk.timeoutTimer.timeout ∧
    kerchunkUnexpired [100, 100] (stateMachine true (clock 20 simKerchunk)) = true ∧
    (evaluations (burst 20 [100, 100] 100) simKerchunk).map
        (fun c => c.timeoutTimer.isRunning) = [true, true, true, false] := by
  decide

/-- C5, as amended: in a kerchunk-debounced false trigger (as in C4, with a
non-zero transmit-timeout duration) the transmit-timeout timer is started by
the first valid evaluation and is running after every valid evaluation; the
closing evaluation without valid signal stops it, so it is not running once
the controller is back in `FS_LISTENING`. -/
theorem scenario2_timeout_timer (s : CFM E) (n0 m : Nat) (ns : List Nat)
    (hs : s.state = FS_LISTENING) (hk : 0 < s.kerchunkTimer.timeout)
    (ht : 0 < s.timeoutTimer.timeout)
    (hx : kerchunkUnexpired ns (stateMachine true (clock n0 s)) = true) :
    (evaluations (burst n0 ns m) s).map (fun c => c.timeoutTimer.isRunning) =
      List.replicate (ns.length + 1) true ++ [false] := by
  have h1 := listening_valid_kerchunk (clock n0 s) (by rw [(clock_frame n0 s).1, hs])
    (by rw [(clock_frame n0 s).2.2]; exact hk)
  have h2 := kerchunk_hold ns m (stateMachine true (clock n0 s)) h1.1 hx
  have ht2 : 0 < (clock n0 s).timeoutTimer.timeout := by
    show 0 < (s.timeoutTimer.clock n0).timeout
    unfold Timer.clock
    split <;> exact ht
  have hrun : (stateMachine true (clock n0 s)).timeoutTimer.running = true := by
    rw [h1.2.2]
    simp [Timer.start, ht2]
  have hrun2 : (stateMachine true (clock n0 s)).timeoutTimer.isRunning = true := hrun
  rw [burst, List.cons_append, evaluations_cons, List.map_cons, h2.2, hrun, hrun2,
    List.replicate_succ]
  rfl

/-- Witness for C5 as amended: the burst of the counterexample. -/
theorem scenario2_timeout_timer_witness :
    (evaluations (burst 20 [100, 100] 100) simKerchunk).map
        (fun c => c.timeoutTimer.isRunning) = List.replicate 3 true ++ [false] :=
  scenario2_timeout_timer simKerchunk 20 100 [100, 100] rfl (by decide) (by decide) (by decide)

/-! ### Scenarios 3 and 4 -/

/-- When neither keyer reports running at the check of line 120, the mixer adds
the timeout-tone generator's `getAudio` value to the sample. -/
theorem mix_adds_timeout_tone (t : CFM E) (x : Int)
    (hc : E.keyerIsRunning (mixCallsign (mixAck x t).1 (mixAck x t).2).2.callsign = false)
    (ha : E.keyerIsRunning (mixCallsign (mixAck x t).1 (mixAck x t).2).2.rfAck = false) :
    (mix x t).1 = toQ15 ((mixCallsign (mixAck x t).1 (mixAck x t).2).1 +
      (E.toneGetAudio t.timeoutTone).1) := by
  have htone : (mixCallsign (mixAck x t).1 (mixAck x t).2).2.timeoutTone = t.timeoutTone := by
    unfold mixCallsign mixAck
    split <;> split <;> (try split) <;> rfl
  simp only [mix, mixTimeoutTone, hc, ha, htone]
  rfl

/-- C6 (Scenario 3): in `FS_RELAYING` with the transmit-timeout timer running
and expired, an evaluation with valid signal leaves the state `FS_TIMEOUT`,
the minimum-ack and transmit-timeout timers stopped and the timeout-tone
generator started; and for the sample mixed next (and any later one) in which
neither keyer reports running, the started generator's `getAudio` value is
added into the mixed sample. -/
theorem scenario3_timeout (s : CFM E) (hs : s.state = FS_RELAYING)
    (hr : s.timeoutTimer.isRunning = true) (hx : s.timeoutTimer.hasExpired = true) :
    (stateMachine true s).state = FS_TIMEOUT ∧
    (stateMachine true s).ackMinTimer.isRunning = false ∧
    (stateMachine true s).timeoutTimer.isRunning = false ∧
    (stateMachine true s).timeoutTone = E.toneStart s.timeoutTone ∧
    ∀ x : Int,
      E.keyerIsRunning (mixCallsign (mixAck x (stateMachine true s)).1
          (mixAck x (stateMachine true s)).2).2.callsign = false →
      E.keyerIsRunning (mixCallsign (mixAck x (stateMachine true s)).1
          (mixAck x (stateMachine true s)).2).2.rfAck = false →
      (mix x (stateMachine true s)).1 =
        toQ15 ((mixCallsign (mixAck x (stateMachine true s)).1
          (mixAck x (stateMachine true s)).2).1 +
          (E.toneGetAudio (E.toneStart s.timeoutTone)).1) := by
  have hd : (dispatch true s).state = FS_TIMEOUT ∧
      (dispatch true s).ackMinTimer.isRunning = false ∧
      (dispatch true s).timeoutTimer.isRunning = false ∧
      (dispatch true s).timeoutTone = E.toneStart s.timeoutTone := by
    have hr2 : s.timeoutTimer.running = true := hr
    simp [dispatch, relayingState, hs, hr2, hx, callsignRepeat_frame, DEBUG1, Timer.stop,
      Timer.isRunning]
  have hsm : stateMachine true s = dispatch true s :=
    demote_not_listening _ (by rw [hd.1]; decide)
  have htone : (stateMachine true s).timeoutTone = E.toneStart s.timeoutTone := by
    rw [hsm, hd.2.2.2]
  refine ⟨by rw [hsm, hd.1], by rw [hsm, hd.2.1], by rw [hsm, hd.2.2.1], htone, ?_⟩
  intro x hc ha
  rw [mix_adds_timeout_tone _ x hc ha, htone]

/-- Witness for C6: transmit timeout of 4000 ticks expired while relaying; the
sample mixed next carries the timeout tone (700). -/
theorem scenario3_timeout_witness :
    (stateMachine true simTimedOut).state = FS_TIMEOUT ∧
    (stateMachine true simTimedOut).timeoutTone = true ∧
    (mix 0 (stateMachine true simTimedOut)).1 = 700 :=
  ⟨(scenario3_timeout simTimedOut rfl rfl (by decide)).1,
   (scenario3_timeout simTimedOut rfl rfl (by decide)).2.2.2.1,
   (scenario3_timeout simTimedOut rfl rfl (by decide)).2.2.2.2 0 (by decide) (by decide)⟩

/-- C7 (Scenario 4): in `FS_RELAYING_WAIT`, an evaluation without valid
signal with the ack-delay timer running and expired leaves the state `FS_HANG`
and starts the hang timer in every case. The acknowledgement generator is
started ("Send ack" is written once) exactly when the minimum-ack timer is not
running or has expired; when that timer is running and unexpired the generator
is untouched, nothing is written, and the minimum-ack timer is left running. -/
theorem scenario4_ack_suppression (s : CFM E) (hs : s.state = FS_RELAYING_WAIT)
    (hr : s.ackDelayTimer.isRunning = true) (hx : s.ackDelayTimer.hasExpired = true) :
    (stateMachine false s).state = FS_HANG ∧
    (stateMachine false s).hangTimer = s.hangTimer.start ∧
    (stateMachine false s).rfAck =
      (if !s.ackMinTimer.isRunning || s.ackMinTimer.hasExpired then E.keyerStart s.rfAck
        else s.rfAck) ∧
    (stateMachine false s).debug.count "Send ack" =
      s.debug.count "Send ack" +
        (if !s.ackMinTimer.isRunning || s.ackMinTimer.hasExpired then 1 else 0) ∧
    (s.ackMinTimer.isRunning = true → s.ackMinTimer.hasExpired = false →
      (stateMachine false s).ackMinTimer = s.ackMinTimer ∧
      (stateMachine false s).ackMinTimer.isRunning = true) := by
  have hr2 : s.ackDelayTimer.running = true := hr
  have hstate : (dispatch false s).state = FS_HANG := by
    cases hm : s.ackMinTimer.running <;> cases hme : s.ackMinTimer.hasExpired <;>
      simp [dispatch, relayingWaitState, hs, hr2, hx, hm, hme, callsignRepeat_frame, DEBUG1,
        Timer.isRunning]
  have hsm : stateMachine false s = dispatch false s :=
    demote_not_listening _ (by rw [hstate]; decide)
  rw [hsm]
  refine ⟨hstate, ?_, ?_, ?_, ?_⟩
  · cases hm : s.ackMinTimer.running <;> cases hme : s.ackMinTimer.hasExpired <;>
      simp [dispatch, relayingWaitState, hs, hr2, hx, hm, hme, callsignRepeat_frame, DEBUG1,
        Timer.isRunning]
  · cases hm : s.ackMinTimer.running <;> cases hme : s.ackMinTimer.hasExpired <;>
      simp [dispatch, relayingWaitState, hs, hr2, hx, hm, hme, callsignRepeat_frame, DEBUG1,
        Timer.isRunning]
  · cases hm : s.ackMinTimer.running <;> cases hme : s.ackMinTimer.hasExpired <;>
      simp [dispatch, relayingWaitState, hs, hr2, hx, hm, hme, callsignRepeat_count, DEBUG1,
        Timer.isRunning, List.count_cons]
  · intro hm hme
    have hm2 : s.ackMinTimer.running = true := hm
    simp [dispatch, relayingWaitState, hs, hr2, hx, hm2, hme, callsignRepeat_frame, DEBUG1,
      Timer.isRunning]

/-- Witness for C7: a short over. The ack-delay timer has expired, the
minimum-ack timer is still unexpired: `FS_HANG` is entered and no
acknowledgement is started. -/
theorem scenario4_ack_suppression_witness :
    (stateMachine false simShortOver).state = FS_HANG ∧
    (stateMachine false simShortOver).hangTimer.isRunning = true ∧
    (stateMachine false simShortOver).rfAck = simShortOver.rfAck ∧
    (stateMachine false simShortOver).ackMinTimer.isRunning = true :=
  ⟨(scenario4_ack_suppression simShortOver rfl rfl (by decide)).1,
   congrArg Timer.isRunning (scenario4_ack_suppression simShortOver rfl rfl (by decide)).2.1,
   (scenario4_ack_suppression simShortOver rfl rfl (by decide)).2.2.1,
   ((scenario4_ack_suppression simShortOver rfl rfl (by decide)).2.2.2.2 rfl (by decide)).2⟩

/-! ### Reset -/

/-- C9, counterexample: `reset` of a controller whose post-key holdoff timer is
running leaves that timer running. -/
theorem reset_keeps_holdoff_running :
    simBusy.holdoffTimer.isRunning = true ∧ (reset simBusy).holdoffTimer.isRunning = true := by
  decide

/-- C9, as amended: after `reset`, from every controller state, the state is
`FS_LISTENING`; the identification-repeat, transmit-timeout, kerchunk,
minimum-ack, acknowledgement-delay and hang timers are not running; the
post-key holdoff timer is as it was; `stop` has been applied to the
identification, acknowledgement and timeout-tone generators and `reset` to the
CTCSS decoder; the output ring buffer is empty. -/
theorem reset_postcondition (s : CFM E) :
    (reset s).state = FS_LISTENING ∧
    (reset s).callsignTimer.isRunning = false ∧
    (reset s).timeoutTimer.isRunning = false ∧
    (reset s).kerchunkTimer.isRunning = false ∧
    (reset s).ackMinTimer.isRunning = false ∧
    (reset s).ackDelayTimer.isRunning = false ∧
    (reset s).hangTimer.isRunning = false ∧
    (reset s).holdoffTimer = s.holdoffTimer ∧
    (reset s).callsign = E.keyerStop s.callsign ∧
    (reset s).rfAck = E.keyerStop s.rfAck ∧
    (reset s).timeoutTone = E.toneStop s.timeoutTone ∧
    (reset s).ctcssRX = E.ctcssRXReset s.ctcssRX ∧
    (reset s).outputRB.data = [] :=
  ⟨rfl, rfl, rfl, rfl, rfl, rfl, rfl, rfl, rfl, rfl, rfl, rfl, rfl⟩

/-- C10: `reset` is idempotent, given that `stop` on a generator and `reset` on
the CTCSS decoder are idempotent (`stop` on a timer and `reset` on the ring
buffer are). -/
theorem reset_idempotent (s : CFM E)
    (hkeyer : ∀ k, E.keyerStop (E.keyerStop k) = E.keyerStop k)
    (htone : ∀ t, E.toneStop (E.toneStop t) = E.toneStop t)
    (hctcss : ∀ r, E.ctcssRXReset (E.ctcssRXReset r) = E.ctcssRXReset r) :
    reset (reset s) = reset s := by
  simp [reset, Timer.stop, RingBuffer.reset, hkeyer, htone, hctcss]

/-- Witness for C10: the busy controller over the concrete collaborators. -/
theorem reset_idempotent_witness : reset (reset simBusy) = reset simBusy :=
  reset_idempotent simBusy (fun _ => rfl) (fun _ => rfl) (fun _ => rfl)

/-! ### Scenario 5 -/

/-- A timer that has just been started cannot have expired, provided a running
timer has a non-zero duration. -/
theorem timer_start_fresh (t : Timer) (hwf : t.running = true → 0 < t.timeout) :
    (t.start.running = true → 0 < t.start.timeout) ∧
    (t.start.running = true → t.start.hasExpired = false) := by
  unfold Timer.start
  split
  · rename_i h
    simp [Timer.hasExpired, h]
    omega
  · rename_i h
    exact ⟨hwf, fun hr => absurd (hwf hr) h⟩

/-- The identification-repeat check does nothing while the
identification-repeat timer has not expired. -/
theorem callsignRepeat_unexpired (s : CFM E) (h : s.callsignTimer.hasExpired = false) :
    callsignRepeat s = s := by
  simp [callsignRepeat, h]

/-- Once the repeat has been served, further evaluations in the same block
keep it served: none of them sends the callsign again, restarts or stops the
identification-repeat timer, or leaves the four states. -/
theorem stateMachine_repeatServed (c : Nat) (v : Bool) (s : CFM E) (h : RepeatServed c s) :
    RepeatServed c (stateMachine v s) := by
  obtain ⟨hm, hst, hrun, hel, hper, hwf, hfresh, hcnt⟩ := h
  have hnx : s.callsignTimer.hasExpired = false := by
    simp [Timer.hasExpired, hel]
    omega
  have hsf := timer_start_fresh s.ackDelayTimer hwf
  have hcr : ∀ t : CFM E, t.callsignTimer = s.callsignTimer → callsignRepeat t = t :=
    fun t ht => callsignRepeat_unexpired t (by rw [ht]; exact hnx)
  rcases hst with hs | hs | hs | hs
  · -- FS_RELAYING
    have hd : dispatch v s = relayingState v s := by
      unfold dispatch
      rw [hs]
    rw [stateMachine, hd]
    cases v
    · have he : relayingState false s =
          { s with decode := false, adcDetection := false,
                   debug := s.debug ++ ["State to RELAYING_WAIT"],
                   state := FS_RELAYING_WAIT, ackDelayTimer := s.ackDelayTimer.start } :=
        hcr _ rfl
      rw [he, demote_not_listening _ (by simp)]
      exact ⟨hm, by simp, hrun, hel, hper, hsf.1, fun _ => hsf.2, by simpa using hcnt⟩
    · by_cases hto : (s.timeoutTimer.isRunning && s.timeoutTimer.hasExpired) = true
      · have he : relayingState true s =
            { s with debug := s.debug ++ ["State to TIMEOUT"], state := FS_TIMEOUT,
                     ackMinTimer := s.ackMinTimer.stop, timeoutTimer := s.timeoutTimer.stop,
                     timeoutTone := E.toneStart s.timeoutTone } := by
          unfold relayingState
          simp only [↓reduceIte, hto]
          exact hcr _ rfl
        rw [he, demote_not_listening _ (by simp)]
        exact ⟨hm, by simp, hrun, hel, hper, hwf, by simp, by simpa using hcnt⟩
      · have he : relayingState true s = s := by
          unfold relayingState
          simp only [↓reduceIte, hto]
          exact hcr _ rfl
        rw [he, demote_not_listening _ (by simp [hs])]
        exact ⟨hm, Or.inl hs, hrun, hel, hper, hwf, hfresh, hcnt⟩
  · -- FS_RELAYING_WAIT
    have hd : dispatch v s = relayingWaitState v s := by
      unfold dispatch
      rw [hs]
    rw [stateMachine, hd]
    cases v
    · have hnf : (s.ackDelayTimer.isRunning && s.ackDelayTimer.hasExpired) = false := by
        rcases Bool.eq_false_or_eq_true s.ackDelayTimer.running with hr | hr
        · simp [Timer.isRunning, hr, hfresh (Or.inl hs) hr]
        · simp [Timer.isRunning, hr]
      have he : relayingWaitState false s = s := by
        unfold relayingWaitState
        simp only [↓reduceIte, hnf, Bool.false_eq_true]
        exact hcr _ rfl
      rw [he, demote_not_listening _ (by simp [hs])]
      exact ⟨hm, Or.inr (Or.inl hs), hrun, hel, hper, hwf, hfresh, hcnt⟩
    · have he : relayingWaitState true s =
          { s with decode := true, adcDetection := true,
                   debug := s.debug ++ ["State to RELAYING"],
                   state := FS_RELAYING, ackDelayTimer := s.ackDelayTimer.stop } :=
        hcr _ rfl
      rw [he, demote_not_listening _ (by simp)]
      exact ⟨hm, by simp, hrun, hel, hper, by simp [Timer.stop], by simp,
        by simpa using hcnt⟩
  · -- FS_TIMEOUT
    have hd : dispatch v s = timeoutState v s := by
      unfold dispatch
      rw [hs]
    rw [stateMachine, hd]
    cases v
    · have he : timeoutState false s =
          { s with decode := false, adcDetection := false,
                   debug := s.debug ++ ["State to TIMEOUT_WAIT"],
                   state := FS_TIMEOUT_WAIT, ackDelayTimer := s.ackDelayTimer.start } :=
        hcr _ rfl
      rw [he, demote_not_listening _ (by simp)]
      exact ⟨hm, by simp, hrun, hel, hper, hsf.1, fun _ => hsf.2, by simpa using hcnt⟩
    · have he : timeoutState true s = s := hcr _ rfl
      rw [he, demote_not_listening _ (by simp [hs])]
      exact ⟨hm, Or.inr (Or.inr (Or.inl hs)), hrun, hel, hper, hwf, hfresh, hcnt⟩
  · -- FS_TIMEOUT_WAIT
    have hd : dispatch v s = timeoutWaitState v s := by
      unfold dispatch
      rw [hs]
    rw [stateMachine, hd]
    cases v
    · have hnf : (s.ackDelayTimer.isRunning && s.ackDelayTimer.hasExpired) = false := by
        rcases Bool.eq_false_or_eq_true s.ackDelayTimer.running with hr | hr
        · simp [Timer.isRunning, hr, hfresh (Or.inr hs) hr]
        · simp [Timer.isRunning, hr]
      have he : timeoutWaitState false s = s := by
        unfold timeoutWaitState
        simp only [↓reduceIte, hnf, Bool.false_eq_true]
        exact hcr _ rfl
      rw [he, demote_not_listening _ (by simp [hs])]
      exact ⟨hm, Or.inr (Or.inr (Or.inr hs)), hrun, hel, hper, hwf, hfresh, hcnt⟩
    · have he : timeoutWaitState true s =
          { s with decode := true, adcDetection := true,
                   debug := s.debug ++ ["State to TIMEOUT"],
                   state := FS_TIMEOUT, ackDelayTimer := s.ackDelayTimer.stop } :=
        hcr _ rfl
      rw [he, demote_not_listening _ (by simp)]
      exact ⟨hm, by simp, hrun, hel, hper, by simp [Timer.stop], by simp,
        by simpa using hcnt⟩

/-- `sendCallsign` writes "Send callsign" (and starts the identification
generator) exactly when the holdoff timer allows it. -/
theorem sendCallsign_count_self (s : CFM E) :
    (sendCallsign s).debug.count "Send callsign" =
      s.debug.count "Send callsign" + (if holdoffAllows s.holdoffTimer then 1 else 0) := by
  unfold sendCallsign holdoffAllows
  rcases Bool.eq_false_or_eq_true s.holdoffTimer.isRunning with hr | hr <;>
    rcases Bool.eq_false_or_eq_true s.holdoffTimer.hasExpired with hx | hx <;>
    simp [hr, hx, DEBUG1, List.count_cons]

/-- The identification-repeat check on a running, expired timer with a non-zero
period: `sendCallsign` is called once and the timer is restarted. -/
theorem callsignRepeat_due (s : CFM E) (hr : s.callsignTimer.running = true)
    (hx : s.callsignTimer.hasExpired = true) (hp : 0 < s.callsignTimer.timeout) :
    (callsignRepeat s).state = s.state ∧ (callsignRepeat s).modemState = s.modemState ∧
    (callsignRepeat s).ackDelayTimer = s.ackDelayTimer ∧
    (callsignRepeat s).callsignTimer.running = true ∧
    (callsignRepeat s).callsignTimer.elapsed = 0 ∧
    (callsignRepeat s).callsignTimer.timeout = s.callsignTimer.timeout ∧
    (callsignRepeat s).debug.count "Send callsign" =
      s.debug.count "Send callsign" + (if holdoffAllows s.holdoffTimer then 1 else 0) := by
  have hf := callsignRepeat_frame s
  refine ⟨hf.1, hf.2.1, hf.2.2.2.2.2.2.1, ?_, ?_, ?_, ?_⟩ <;>
    simp [callsignRepeat, Timer.isRunning, hr, hx, sendCallsign_frame, Timer.start, hp,
      sendCallsign_count_self]

/-- The identification-repeat check that closes a state function, followed by
the demotion check, serves a due repeat. -/
theorem callsignRepeat_serves (c : Nat) (h : Timer) (b : CFM E)
    (hm : b.modemState = STATE_FM)
    (hst : b.state = FS_RELAYING ∨ b.state = FS_RELAYING_WAIT ∨ b.state = FS_TIMEOUT ∨
      b.state = FS_TIMEOUT_WAIT)
    (hrun : b.callsignTimer.running = true) (hper : 0 < b.callsignTimer.timeout)
    (hexp : b.callsignTimer.hasExpired = true)
    (hwf : b.ackDelayTimer.running = true → 0 < b.ackDelayTimer.timeout)
    (hfresh : b.state = FS_RELAYING_WAIT ∨ b.state = FS_TIMEOUT_WAIT →
      b.ackDelayTimer.running = true → b.ackDelayTimer.hasExpired = false)
    (hh : b.holdoffTimer = h) (hcnt : b.debug.count "Send callsign" = c) :
    RepeatServed (c + (if holdoffAllows h then 1 else 0)) (demote (callsignRepeat b)) := by
  obtain ⟨r1, r2, r3, r4, r5, r6, r7⟩ := callsignRepeat_due b hrun hexp hper
  have hnl : (callsignRepeat b).state ≠ FS_LISTENING := by
    rw [r1]
    rcases hst with hs | hs | hs | hs <;> rw [hs] <;> decide
  rw [demote_not_listening _ hnl]
  exact ⟨by rw [r2, hm], by rw [r1]; exact hst, r4, r5, by rw [r6]; exact hper,
    by rw [r3]; exact hwf, by rw [r1, r3]; exact hfresh, by rw [r7, hcnt, hh]⟩

/-- The first evaluation of a block in which the identification repeat is due
serves it: `sendCallsign` is called once, the identification-repeat timer is
restarted. -/
theorem stateMachine_repeatDue (c : Nat) (h : Timer) (v : Bool) (s : CFM E)
    (hd : RepeatDue c h s) :
    RepeatServed (c + (if holdoffAllows h then 1 else 0)) (stateMachine v s) := by
  obtain ⟨hm, hs, hrun, hper, hexp, hwf, hh, hcnt⟩ := hd
  have hsf := timer_start_fresh s.ackDelayTimer hwf
  have hdis : dispatch v s = relayingState v s := by
    unfold dispatch
    rw [hs]
  rw [stateMachine, hdis]
  cases v
  · have he : relayingState false s = callsignRepeat
        { s with decode := false, adcDetection := false,
                 debug := s.debug ++ ["State to RELAYING_WAIT"],
                 state := FS_RELAYING_WAIT, ackDelayTimer := s.ackDelayTimer.start } := rfl
    rw [he]
    exact callsignRepeat_serves c h _ hm (by simp) hrun hper hexp hsf.1 (fun _ => hsf.2) hh
      (by simpa using hcnt)
  · by_cases hto : (s.timeoutTimer.isRunning && s.timeoutTimer.hasExpired) = true
    · have he : relayingState true s = callsignRepeat
          { s with debug := s.debug ++ ["State to TIMEOUT"], state := FS_TIMEOUT,
                   ackMinTimer := s.ackMinTimer.stop, timeoutTimer := s.timeoutTimer.stop,
                   timeoutTone := E.toneStart s.timeoutTone } := by
        unfold relayingState
        simp only [↓reduceIte, hto]
        rfl
      rw [he]
      exact callsignRepeat_serves c h _ hm (by simp) hrun hper hexp hwf (by simp) hh
        (by simpa using hcnt)
    · have he : relayingState true s = callsignRepeat s := by
        unfold relayingState
        simp only [↓reduceIte, hto, Bool.false_eq_true]
      rw [he]
      exact callsignRepeat_serves c h s hm (Or.inl hs) hrun hper hexp hwf (by simp [hs]) hh hcnt

/-- The front end of the loop body writes only the CTCSS decoder and the
input ring buffer. -/
theorem frontEnd_control (x : Int) (s : CFM E) : control (frontEnd x s).2.2 = control s := by
  unfold frontEnd
  dsimp only
  split <;> rfl

/-- The squelch gate writes only the blanking limiter. -/
theorem gate_control (x : Int) (s : CFM E) : control (gate x s).2 = control s := by
  unfold gate
  split <;> rfl

/-- The acknowledgement addition writes only the acknowledgement keyer. -/
theorem mixAck_control (x : Int) (s : CFM E) : control (mixAck x s).2 = control s := by
  unfold mixAck
  split <;> rfl

/-- The identification addition writes only the identification keyer. -/
theorem mixCallsign_control (x : Int) (s : CFM E) :
    control (mixCallsign x s).2 = control s := by
  unfold mixCallsign
  split
  · split <;> rfl
  · rfl

/-- The timeout-tone addition writes only the timeout-tone generator. -/
theorem mixTimeoutTone_control (x : Int) (s : CFM E) :
    control (mixTimeoutTone x s).2 = control s := by
  unfold mixTimeoutTone
  split <;> rfl

/-- Filtering and output write only the filters, the CTCSS encoder and the
output ring buffer. -/
theorem emit_control (x : Int) (s : CFM E) : control (emit x s) = control s := by
  unfold emit
  dsimp only
  split <;> rfl

/-- The audio path changes neither the state, the host mode, the timers nor
the debug output. -/
theorem audioPath_control (x : Int) (s : CFM E) : control (audioPath x s) = control s := by
  unfold audioPath mix
  rw [emit_control, mixTimeoutTone_control, mixCallsign_control, mixAck_control, gate_control]

/-- `RepeatServed` depends on the controller through `control` only. -/
theorem repeatServed_of_control {c : Nat} {a b : CFM E} (h : control a = control b)
    (hb : RepeatServed c b) : RepeatServed c a := by
  simp only [control, Prod.mk.injEq] at h
  obtain ⟨h1, h2, h3, -, h5, h6⟩ := h
  obtain ⟨m, st, r, e, p, w, f, n⟩ := hb
  exact ⟨by rw [h2]; exact m, by rw [h1]; exact st, by rw [h3]; exact r, by rw [h3]; exact e,
    by rw [h3]; exact p, by rw [h5]; exact w, by rw [h1, h5]; exact f, by rw [h6]; exact n⟩

/-- `RepeatDue` depends on the controller through `control` only. -/
theorem repeatDue_of_control {c : Nat} {t : Timer} {a b : CFM E} (h : control a = control b)
    (hb : RepeatDue c t b) : RepeatDue c t a := by
  simp only [control, Prod.mk.injEq] at h
  obtain ⟨h1, h2, h3, h4, h5, h6⟩ := h
  obtain ⟨m, st, r, p, e, w, ho, n⟩ := hb
  exact ⟨by rw [h2]; exact m, by rw [h1]; exact st, by rw [h3]; exact r, by rw [h3]; exact p,
    by rw [h3]; exact e, by rw [h5]; exact w, by rw [h4]; exact ho, by rw [h6]; exact n⟩

/-- The evaluation policy (FM.cpp 79-99) when the host mode is `STATE_FM`. -/
theorem evaluate_fm (cos : Bool) (cs : CtcssState) (last : Bool) (s : CFM E)
    (hm : s.modemState = STATE_FM) :
    evaluate cos cs last s =
      if cs.ready then
        (if (stateMachine (cs.valid && cos) s).modemState ≠ STATE_FM then
          (Flow.break_, stateMachine (cs.valid && cos) s)
        else (Flow.through, stateMachine (cs.valid && cos) s))
      else if last then (Flow.through, stateMachine (cs.valid && cos) s)
      else (Flow.through, s) := by
  unfold evaluate
  rcases Bool.eq_false_or_eq_true cs.ready with hr | hr <;>
    rcases Bool.eq_false_or_eq_true last with hl | hl <;> simp [hm, hr, hl]

/-- One pass through the loop body ends with the controller `evaluate` left,
or with that controller after the audio path. -/
theorem sampleStep_cases (cos : Bool) (x : Int) (last : Bool) (s : CFM E) :
    (sampleStep cos x last s).2 = (evaluate cos (frontEnd x s).1 last (frontEnd x s).2.2).2 ∨
    (sampleStep cos x last s).2 =
      audioPath (frontEnd x s).2.1 (evaluate cos (frontEnd x s).1 last (frontEnd x s).2.2).2 := by
  unfold sampleStep
  dsimp only
  generalize evaluate cos (frontEnd x s).1 last (frontEnd x s).2.2 = e
  rcases e with ⟨fl, s2⟩
  cases fl <;> simp

/-- In host mode `STATE_FM` the state machine is evaluated for a sample exactly
when the decoder is ready or the sample is the last of the block. -/
theorem evaluate_fm_snd (cos : Bool) (cs : CtcssState) (last : Bool) (s : CFM E)
    (hm : s.modemState = STATE_FM) :
    (evaluate cos cs last s).2 =
      if cs.ready || last then stateMachine (cs.valid && cos) s else s := by
  rw [evaluate_fm cos cs last s hm]
  rcases Bool.eq_false_or_eq_true cs.ready with hr | hr <;>
    rcases Bool.eq_false_or_eq_true last with hl | hl <;> simp [hr, hl] <;>
    split <;> rfl

/-- A served repeat stays served through the evaluation policy. -/
theorem evaluate_served (c : Nat) (cos : Bool) (cs : CtcssState) (last : Bool) (s : CFM E)
    (h : RepeatServed c s) : RepeatServed c (evaluate cos cs last s).2 := by
  rw [evaluate_fm_snd cos cs last s h.modem]
  split
  · exact stateMachine_repeatServed c (cs.valid && cos) s h
  · exact h

/-- A served repeat stays served through one pass of the loop body. -/
theorem sampleStep_served (c : Nat) (cos : Bool) (x : Int) (last : Bool) (s : CFM E)
    (h : RepeatServed c s) : RepeatServed c (sampleStep cos x last s).2 := by
  have h1 : RepeatServed c (frontEnd x s).2.2 := repeatServed_of_control (frontEnd_control x s) h
  have h2 := evaluate_served c cos (frontEnd x s).1 last _ h1
  rcases sampleStep_cases cos x last s with he | he <;> rw [he]
  · exact h2
  · exact repeatServed_of_control (audioPath_control _ _) h2

/-- A served repeat stays served through the rest of the block. -/
theorem samplesLoop_served (c : Nat) (cos : Bool) (block : List Int) (s : CFM E)
    (h : RepeatServed c s) : RepeatServed c (samplesLoop cos block s) := by
  induction block generalizing s with
  | nil => exact h
  | cons x rest ih =>
    have hstep := sampleStep_served c cos x rest.isEmpty s h
    unfold samplesLoop
    simp only
    split
    · exact hstep
    · exact ih _ hstep

/-- One pass of the loop body while the repeat is due: either the state machine
is evaluated and serves it, or this is not the last sample, the loop goes on
and the repeat is still due. -/
theorem sampleStep_due (c : Nat) (t : Timer) (cos : Bool) (x : Int) (last : Bool) (s : CFM E)
    (h : RepeatDue c t s) :
    RepeatServed (c + (if holdoffAllows t then 1 else 0)) (sampleStep cos x last s).2 ∨
    (last = false ∧ (sampleStep cos x last s).1 = false ∧
      RepeatDue c t (sampleStep cos x last s).2) := by
  have h1 : RepeatDue c t (frontEnd x s).2.2 := repeatDue_of_control (frontEnd_control x s) h
  have hsm := stateMachine_repeatDue c t ((frontEnd x s).1.valid && cos) _ h1
  generalize c + (if holdoffAllows t then 1 else 0) = c2 at hsm ⊢
  have hsnd := evaluate_fm_snd cos (frontEnd x s).1 last _ h1.modem
  by_cases hev : ((frontEnd x s).1.ready || last) = true
  · left
    rw [if_pos hev] at hsnd
    rcases sampleStep_cases cos x last s with he | he <;> rw [he, hsnd]
    · exact hsm
    · exact repeatServed_of_control (audioPath_control _ _) hsm
  · right
    have hr : (frontEnd x s).1.ready = false := by
      rcases Bool.eq_false_or_eq_true (frontEnd x s).1.ready with hr | hr
      · simp [hr] at hev
      · exact hr
    have hl : last = false := by
      rcases Bool.eq_false_or_eq_true last with hl | hl
      · simp [hl] at hev
      · exact hl
    have hev2 : evaluate cos (frontEnd x s).1 last (frontEnd x s).2.2 =
        (Flow.through, (frontEnd x s).2.2) := by
      rw [evaluate_fm cos _ last _ h1.modem]
      simp only [hr, hl, ↓reduceIte, Bool.false_eq_true]
    have hstep : sampleStep cos x last s =
        (false, audioPath (frontEnd x s).2.1 (frontEnd x s).2.2) := by
      unfold sampleStep
      simp only [hev2]
    rw [hstep]
    exact ⟨hl, rfl, repeatDue_of_control (audioPath_control _ _) h1⟩

/-- A block entered with the repeat due ends with the repeat served, exactly
once. -/
theorem samplesLoop_due (c : Nat) (t : Timer) (cos : Bool) (block : List Int) (s : CFM E)
    (hne : block ≠ []) (h : RepeatDue c t s) :
    RepeatServed (c + (if holdoffAllows t then 1 else 0)) (samplesLoop cos block s) := by
  induction block generalizing s with
  | nil => exact absurd rfl hne
  | cons x rest ih =>
    unfold samplesLoop
    simp only
    rcases sampleStep_due c t cos x rest.isEmpty s h with hs | ⟨hl, hb, hd⟩
    · by_cases hbr : (sampleStep cos x rest.isEmpty s).1 = true
      · rw [if_pos hbr]
        exact hs
      · rw [if_neg hbr]
        exact samplesLoop_served _ cos rest _ hs
    · rw [hb]
      simp only [Bool.false_eq_true, ↓reduceIte]
      apply ih _ _ hd
      intro hnil
      rw [hnil] at hl
      exact absurd hl (by decide)

/-- `Timer.clock` keeps the running flag and the duration and never decreases
the elapsed count. -/
theorem timer_clock_frame (t : Timer) (n : Nat) :
    (t.clock n).running = t.running ∧ (t.clock n).timeout = t.timeout ∧
    t.elapsed ≤ (t.clock n).elapsed := by
  unfold Timer.clock
  split
  · exact ⟨rfl, rfl, Nat.le_add_right _ _⟩
  · exact ⟨rfl, rfl, Nat.le_refl _⟩

/-- "Send callsign" is written exactly when the identification generator is
started: `sendCallsign` either starts the generator and writes the message, or
changes nothing at all. -/
theorem sendCallsign_callsign (s : CFM E) :
    (holdoffAllows s.holdoffTimer = true →
      (sendCallsign s).callsign = E.keyerStart s.callsign ∧
      (sendCallsign s).debug = s.debug ++ ["Send callsign"]) ∧
    (holdoffAllows s.holdoffTimer = false → sendCallsign s = s) := by
  unfold sendCallsign holdoffAllows
  rcases Bool.eq_false_or_eq_true s.holdoffTimer.isRunning with hr | hr <;>
    rcases Bool.eq_false_or_eq_true s.holdoffTimer.hasExpired with hx | hx <;>
    simp [hr, hx, DEBUG1]

/-- C8, counterexample: the identification-repeat timer has expired while
relaying, the holdoff timer is running and unexpired. A block of three samples
restarts the identification-repeat timer but never starts the identification
generator: no "Send callsign" is written and the keyer is not wanted. -/
theorem scenario5_holdoff_blocks :
    simRepeatHeld.state = FS_RELAYING ∧ simRepeatHeld.callsignTimer.isRunning = true ∧
    simRepeatHeld.callsignTimer.hasExpired = true ∧
    (samples true [0, 0, 0] simRepeatHeld).debug.count "Send callsign" = 0 ∧
    simCollab.keyerIsWanted (samples true [0, 0, 0] simRepeatHeld).callsign = false ∧
    (samples true [0, 0, 0] simRepeatHeld).callsignTimer.elapsed = 0 := by
  decide

/-- C8, as amended: for every non-empty block passed to `CFM::samples` in host
mode `STATE_FM` while the state is `FS_RELAYING` and the identification-repeat
timer (non-zero period) is running and, once `CFM::clock` has added the block's
ticks (FM.cpp 64), has expired, with the ack-delay timer either stopped or of
non-zero duration: whatever the number of samples and whatever the CTCSS
decoder reports, the expiration is served exactly once in the block. This
covers the triggering block, in which the timer expires under the block's own
ticks, and a block entered with the timer already expired. The
identification-repeat timer is left restarted (running, nothing elapsed,
unexpired), and "Send callsign" is written, that is the identification
generator is started, exactly once if the holdoff timer, after the block's
ticks, is not running or has expired, and not at all if it is running and
unexpired. -/
theorem scenario5_repeat_once (cos : Bool) (block : List Int) (s : CFM E)
    (hne : block ≠ []) (hm : s.modemState = STATE_FM) (hs : s.state = FS_RELAYING)
    (hr : s.callsignTimer.isRunning = true) (hp : 0 < s.callsignTimer.timeout)
    (hx : (clock block.length s).callsignTimer.hasExpired = true)
    (hwf : s.ackDelayTimer.isRunning = true → 0 < s.ackDelayTimer.timeout) :
    (samples cos block s).debug.count "Send callsign" =
      s.debug.count "Send callsign" +
        (if holdoffAllows (s.holdoffTimer.clock block.length) then 1 else 0) ∧
    (samples cos block s).callsignTimer.isRunning = true ∧
    (samples cos block s).callsignTimer.elapsed = 0 ∧
    (samples cos block s).callsignTimer.hasExpired = false := by
  have hc := timer_clock_frame s.callsignTimer block.length
  have ha := timer_clock_frame s.ackDelayTimer block.length
  have hdue : RepeatDue (s.debug.count "Send callsign") (s.holdoffTimer.clock block.length)
      (clock block.length s) := by
    refine ⟨hm, hs, ?_, ?_, ?_, ?_, rfl, rfl⟩
    · show (s.callsignTimer.clock block.length).running = true
      rw [hc.1]
      exact hr
    · show 0 < (s.callsignTimer.clock block.length).timeout
      rw [hc.2.1]
      exact hp
    · exact hx
    · show (s.ackDelayTimer.clock block.length).running = true →
        0 < (s.ackDelayTimer.clock block.length).timeout
      rw [ha.1, ha.2.1]
      exact hwf
  have hserved := samplesLoop_due _ _
    (if s.useCOS then (if s.cosInvert then !cos else cos) else true) block _ hne hdue
  have hsamples : samples cos block s = samplesLoop
      (if s.useCOS then (if s.cosInvert then !cos else cos) else true) block
      (clock block.length s) := rfl
  rw [hsamples]
  refine ⟨hserved.count, hserved.running, hserved.elapsed, ?_⟩
  simp only [Timer.hasExpired, hserved.elapsed, decide_eq_false_iff_not, Nat.not_le]
  exact hserved.period

/-- Witness for C8 as amended: the triggering block. Holdoff disabled, the
identification-repeat timer at 14399 of 14400 ticks, not expired on entry; a
block of three samples takes it past its period, the callsign is sent once and
the timer restarted. -/
theorem scenario5_repeat_once_witness :
    simRepeatTriggering.callsignTimer.hasExpired = false ∧
    (samples true [0, 0, 0] simRepeatTriggering).debug.count "Send callsign" = 1 ∧
    (samples true [0, 0, 0] simRepeatTriggering).debug.count "Send callsign" =
      simRepeatTriggering.debug.count "Send callsign" +
        (if holdoffAllows (simRepeatTriggering.holdoffTimer.clock [(0 : Int), 0, 0].length)
          then 1 else 0) ∧
    (samples true [0, 0, 0] simRepeatTriggering).callsignTimer.isRunning = true ∧
    (samples true [0, 0, 0] simRepeatTriggering).callsignTimer.elapsed = 0 ∧
    (samples true [0, 0, 0] simRepeatTriggering).callsignTimer.hasExpired = false :=
  ⟨by decide, by decide,
   scenario5_repeat_once true [0, 0, 0] simRepeatTriggering (by decide) rfl rfl rfl (by decide)
     (by decide) (by decide)⟩

/-! ### The demotion rule, the transition table and the invariants -/

/-- The `switch` of `stateMachine` selects the function of the current
state. -/
theorem dispatch_eq (v : Bool) (s : CFM E) :
    (s.state = FS_LISTENING → dispatch v s = listeningState v s) ∧
    (s.state = FS_KERCHUNK → dispatch v s = kerchunkState v s) ∧
    (s.state = FS_RELAYING → dispatch v s = relayingState v s) ∧
    (s.state = FS_RELAYING_WAIT → dispatch v s = relayingWaitState v s) ∧
    (s.state = FS_TIMEOUT → dispatch v s = timeoutState v s) ∧
    (s.state = FS_TIMEOUT_WAIT → dispatch v s = timeoutWaitState v s) ∧
    (s.state = FS_HANG → dispatch v s = hangState v s) := by
  refine ⟨?_, ?_, ?_, ?_, ?_, ?_, ?_⟩ <;> intro h <;> unfold dispatch <;> rw [h]

/-- `kerchunkState`: the host mode is not written; the state stays
`FS_KERCHUNK`, or becomes `FS_RELAYING` on a valid signal or `FS_LISTENING`
without one; timer/state consistency is kept. -/
theorem kerchunkState_summary (v : Bool) (s : CFM E) (hs : s.state = FS_KERCHUNK) :
    (kerchunkState v s).modemState = s.modemState ∧
    ((kerchunkState v s).state = FS_KERCHUNK ∨
      (v = true ∧ (kerchunkState v s).state = FS_RELAYING) ∨
      (v = false ∧ (kerchunkState v s).state = FS_LISTENING)) ∧
    (TimersConsistent s → TimersConsistent (kerchunkState v s)) := by
  rcases Bool.eq_false_or_eq_true v with hv | hv <;>
    rcases Bool.eq_false_or_eq_true s.kerchunkTimer.hasExpired with hx | hx <;>
    rcases Bool.eq_false_or_eq_true s.callsignAtStart with h1 | h1 <;>
    rcases Bool.eq_false_or_eq_true s.callsignAtLatch with h2 | h2 <;>
    simp [kerchunkState, TimersConsistent, Timer.isRunning, Timer.stop, hs, hv, hx, h1, h2,
      sendCallsign_frame, DEBUG1]

/-- `relayingState`: the host mode is not written; the state stays
`FS_RELAYING`, or becomes `FS_TIMEOUT` on a valid signal or `FS_RELAYING_WAIT`
without one; timer/state consistency is kept. -/
theorem relayingState_summary (v : Bool) (s : CFM E) (hs : s.state = FS_RELAYING) :
    (relayingState v s).modemState = s.modemState ∧
    ((relayingState v s).state = FS_RELAYING ∨
      (v = true ∧ (relayingState v s).state = FS_TIMEOUT) ∨
      (v = false ∧ (relayingState v s).state = FS_RELAYING_WAIT)) ∧
    (TimersConsistent s → TimersConsistent (relayingState v s)) := by
  rcases Bool.eq_false_or_eq_true v with hv | hv <;>
    rcases Bool.eq_false_or_eq_true s.timeoutTimer.running with hr | hr <;>
    rcases Bool.eq_false_or_eq_true s.timeoutTimer.hasExpired with hx | hx <;>
    simp [relayingState, TimersConsistent, Timer.isRunning, Timer.stop, hs, hv, hr, hx,
      callsignRepeat_frame, DEBUG1]
  all_goals tauto

/-- `relayingWaitState`: the host mode is not written; the state stays
`FS_RELAYING_WAIT`, or becomes `FS_RELAYING` on a valid signal or `FS_HANG`
without one; timer/state consistency is kept. -/
theorem relayingWaitState_summary (v : Bool) (s : CFM E) (hs : s.state = FS_RELAYING_WAIT) :
    (relayingWaitState v s).modemState = s.modemState ∧
    ((relayingWaitState v s).state = FS_RELAYING_WAIT ∨
      (v = true ∧ (relayingWaitState v s).state = FS_RELAYING) ∨
      (v = false ∧ (relayingWaitState v s).state = FS_HANG)) ∧
    (TimersConsistent s → TimersConsistent (relayingWaitState v s)) := by
  rcases Bool.eq_false_or_eq_true v with hv | hv <;>
    rcases Bool.eq_false_or_eq_true s.ackDelayTimer.running with hr | hr <;>
    rcases Bool.eq_false_or_eq_true s.ackDelayTimer.hasExpired with hx | hx <;>
    rcases Bool.eq_false_or_eq_true s.ackMinTimer.running with hmr | hmr <;>
    rcases Bool.eq_false_or_eq_true s.ackMinTimer.hasExpired with hmx | hmx <;>
    simp [relayingWaitState, TimersConsistent, Timer.isRunning, Timer.stop, hs, hv, hr, hx, hmr,
      hmx, callsignRepeat_frame, DEBUG1]

/-- `hangState`: the host mode is not written; the state stays `FS_HANG`, or
becomes `FS_RELAYING` on a valid signal or `FS_LISTENING` without one;
timer/state consistency is kept. -/
theorem hangState_summary (v : Bool) (s : CFM E) (hs : s.state = FS_HANG) :
    (hangState v s).modemState = s.modemState ∧
    ((hangState v s).state = FS_HANG ∨
      (v = true ∧ (hangState v s).state = FS_RELAYING) ∨
      (v = false ∧ (hangState v s).state = FS_LISTENING)) ∧
    (TimersConsistent s → TimersConsistent (hangState v s)) := by
  rcases Bool.eq_false_or_eq_true v with hv | hv <;>
    rcases Bool.eq_false_or_eq_true s.hangTimer.running with hr | hr <;>
    rcases Bool.eq_false_or_eq_true s.hangTimer.hasExpired with hx | hx <;>
    rcases Bool.eq_false_or_eq_true s.callsignAtEnd with h1 | h1 <;>
    simp [hangState, TimersConsistent, Timer.isRunning, Timer.stop, hs, hv, hr, hx, h1,
      callsignRepeat_frame, sendCallsign_frame, beginRelaying, DEBUG1]
  all_goals tauto

/-- `timeoutState`: the host mode is not written; the state stays `FS_TIMEOUT`,
or becomes `FS_TIMEOUT_WAIT` without a valid signal; timer/state consistency is
kept. -/
theorem timeoutState_summary (v : Bool) (s : CFM E) (hs : s.state = FS_TIMEOUT) :
    (timeoutState v s).modemState = s.modemState ∧
    ((timeoutState v s).state = FS_TIMEOUT ∨
      (v = false ∧ (timeoutState v s).state = FS_TIMEOUT_WAIT)) ∧
    (TimersConsistent s → TimersConsistent (timeoutState v s)) := by
  rcases Bool.eq_false_or_eq_true v with hv | hv <;>
    simp [timeoutState, TimersConsistent, Timer.isRunning, hs, hv, callsignRepeat_frame,
      DEBUG1]
  all_goals tauto

/-- `timeoutWaitState`: the host mode is not written; the state stays
`FS_TIMEOUT_WAIT`, or becomes `FS_TIMEOUT` on a valid signal or `FS_HANG`
without one; timer/state consistency is kept. -/
theorem timeoutWaitState_summary (v : Bool) (s : CFM E) (hs : s.state = FS_TIMEOUT_WAIT) :
    (timeoutWaitState v s).modemState = s.modemState ∧
    ((timeoutWaitState v s).state = FS_TIMEOUT_WAIT ∨
      (v = true ∧ (timeoutWaitState v s).state = FS_TIMEOUT) ∨
      (v = false ∧ (timeoutWaitState v s).state = FS_HANG)) ∧
    (TimersConsistent s → TimersConsistent (timeoutWaitState v s)) := by
  rcases Bool.eq_false_or_eq_true v with hv | hv <;>
    rcases Bool.eq_false_or_eq_true s.ackDelayTimer.running with hr | hr <;>
    rcases Bool.eq_false_or_eq_true s.ackDelayTimer.hasExpired with hx | hx <;>
    simp [timeoutWaitState, TimersConsistent, Timer.isRunning, Timer.stop, hs, hv, hr, hx,
      callsignRepeat_frame, DEBUG1]
  all_goals tauto

/-- `listeningState`: without a valid signal nothing changes; with one, the
host mode becomes `STATE_FM` and the state `FS_KERCHUNK` or `FS_RELAYING`;
timer/state consistency is kept. -/
theorem listeningState_summary (v : Bool) (s : CFM E) (hs : s.state = FS_LISTENING) :
    ((v = false ∧ listeningState v s = s) ∨
      (v = true ∧ (listeningState v s).modemState = STATE_FM ∧
        ((listeningState v s).state = FS_KERCHUNK ∨
          (listeningState v s).state = FS_RELAYING))) ∧
    (TimersConsistent s → TimersConsistent (listeningState v s)) := by
  rcases Bool.eq_false_or_eq_true v with hv | hv
  · rw [hv]
    have hL := listeningState_valid s
    have hstate : (listeningState true s).state = FS_KERCHUNK ∨
        (listeningState true s).state = FS_RELAYING := by
      rw [hL.2.1]
      by_cases hk : 0 < s.kerchunkTimer.timeout
      · rw [if_pos hk]
        exact Or.inl rfl
      · rw [if_neg hk]
        exact Or.inr rfl
    refine ⟨Or.inr ⟨rfl, hL.1, hstate⟩, ?_⟩
    intro hc
    unfold TimersConsistent at hc ⊢
    rw [hL.2.1, hL.2.2.1, hL.2.2.2.1, hL.2.2.2.2.2.2.1]
    rw [hs] at hc
    by_cases hk : 0 < s.kerchunkTimer.timeout
    · rw [if_pos hk, if_pos hk]
      refine ⟨fun _ => rfl, ?_, fun _ => Or.inl rfl⟩
      intro ha
      exact absurd (hc.2.1 ha) (by decide)
    · rw [if_neg hk, if_neg hk]
      refine ⟨?_, ?_, fun _ => Or.inr (Or.inl rfl)⟩
      · intro hr
        exact absurd (hc.1 hr) (by decide)
      · intro ha
        exact absurd (hc.2.1 ha) (by decide)
  · rw [hv]
    have he : listeningState false s = s := by
      unfold listeningState
      exact if_neg (by decide)
    rw [he]
    exact ⟨Or.inl ⟨rfl, rfl⟩, id⟩

/-- The `switch` of `stateMachine` as a whole: it sets the host mode to
`STATE_FM` or leaves it (and then does not leave `FS_LISTENING`); it keeps the
state or follows an edge of the transition table; it keeps timer/state
consistency. -/
theorem dispatch_summary (v : Bool) (s : CFM E) :
    ((dispatch v s).modemState = STATE_FM ∨
      ((dispatch v s).modemState = s.modemState ∧
        (s.state = FS_LISTENING → (dispatch v s).state = FS_LISTENING))) ∧
    ((dispatch v s).state = s.state ∨ allowedEdge s.state v (dispatch v s).state = true) ∧
    (TimersConsistent s → TimersConsistent (dispatch v s)) := by
  have hd := dispatch_eq v s
  rcases hstate : s.state
  · rw [hd.1 hstate]
    obtain ⟨h1, h2⟩ := listeningState_summary v s hstate
    refine ⟨?_, ?_, h2⟩
    · rcases h1 with ⟨-, he⟩ | ⟨-, hm, -⟩
      · rw [he]
        exact Or.inr ⟨rfl, fun _ => hstate⟩
      · exact Or.inl hm
    · rcases h1 with ⟨-, he⟩ | ⟨hv, -, hk | hr⟩
      · rw [he]
        exact Or.inl hstate
      · rw [hk, hv]
        exact Or.inr rfl
      · rw [hr, hv]
        exact Or.inr rfl
  · rw [hd.2.1 hstate]
    obtain ⟨h1, h2, h3⟩ := kerchunkState_summary v s hstate
    refine ⟨Or.inr ⟨h1, fun h => absurd h (by decide)⟩, ?_, h3⟩
    rcases h2 with h | ⟨hv, h⟩ | ⟨hv, h⟩ <;> rw [h]
    · exact Or.inl rfl
    · rw [hv]
      exact Or.inr rfl
    · rw [hv]
      exact Or.inr rfl
  · rw [hd.2.2.1 hstate]
    obtain ⟨h1, h2, h3⟩ := relayingState_summary v s hstate
    refine ⟨Or.inr ⟨h1, fun h => absurd h (by decide)⟩, ?_, h3⟩
    rcases h2 with h | ⟨hv, h⟩ | ⟨hv, h⟩ <;> rw [h]
    · exact Or.inl rfl
    · rw [hv]
      exact Or.inr rfl
    · rw [hv]
      exact Or.inr rfl
  · rw [hd.2.2.2.1 hstate]
    obtain ⟨h1, h2, h3⟩ := relayingWaitState_summary v s hstate
    refine ⟨Or.inr ⟨h1, fun h => absurd h (by decide)⟩, ?_, h3⟩
    rcases h2 with h | ⟨hv, h⟩ | ⟨hv, h⟩ <;> rw [h]
    · exact Or.inl rfl
    · rw [hv]
      exact Or.inr rfl
    · rw [hv]
      exact Or.inr rfl
  · rw [hd.2.2.2.2.1 hstate]
    obtain ⟨h1, h2, h3⟩ := timeoutState_summary v s hstate
    refine ⟨Or.inr ⟨h1, fun h => absurd h (by decide)⟩, ?_, h3⟩
    rcases h2 with h | ⟨hv, h⟩ <;> rw [h]
    · exact Or.inl rfl
    · rw [hv]
      exact Or.inr rfl
  · rw [hd.2.2.2.2.2.1 hstate]
    obtain ⟨h1, h2, h3⟩ := timeoutWaitState_summary v s hstate
    refine ⟨Or.inr ⟨h1, fun h => absurd h (by decide)⟩, ?_, h3⟩
    rcases h2 with h | ⟨hv, h⟩ | ⟨hv, h⟩ <;> rw [h]
    · exact Or.inl rfl
    · rw [hv]
      exact Or.inr rfl
    · rw [hv]
      exact Or.inr rfl
  · rw [hd.2.2.2.2.2.2 hstate]
    obtain ⟨h1, h2, h3⟩ := hangState_summary v s hstate
    refine ⟨Or.inr ⟨h1, fun h => absurd h (by decide)⟩, ?_, h3⟩
    rcases h2 with h | ⟨hv, h⟩ | ⟨hv, h⟩ <;> rw [h]
    · exact Or.inl rfl
    · rw [hv]
      exact Or.inr rfl
    · rw [hv]
      exact Or.inr rfl

/-- The demotion check (FM.cpp 237-248) on a controller in host mode
`STATE_FM`. -/
theorem demote_rule (d : CFM E) (hm : d.modemState = STATE_FM) :
    ((demote d).modemState = STATE_IDLE ↔
      (demote d).state = FS_LISTENING ∧ E.keyerIsWanted (demote d).callsign = false ∧
        E.keyerIsWanted (demote d).rfAck = false) ∧
    ((demote d).modemState = STATE_IDLE →
      (demote d).callsignTimer.isRunning = false ∧ (demote d).timeoutTimer.isRunning = false ∧
      (demote d).kerchunkTimer.isRunning = false ∧ (demote d).ackMinTimer.isRunning = false ∧
      (demote d).ackDelayTimer.isRunning = false ∧ (demote d).hangTimer.isRunning = false) ∧
    ((demote d).modemState ≠ STATE_IDLE → (demote d).modemState = STATE_FM) := by
  by_cases hs : d.state = FS_LISTENING <;>
    rcases Bool.eq_false_or_eq_true (E.keyerIsWanted d.callsign) with h1 | h1 <;>
    rcases Bool.eq_false_or_eq_true (E.keyerIsWanted d.rfAck) with h2 | h2 <;>
    simp [demote, hs, hm, h1, h2, DEBUG1, Timer.stop, Timer.isRunning]

/-- C11: for every `stateMachine` evaluation that begins in host mode
`STATE_FM`, the mode afterwards is `STATE_IDLE` exactly when the resulting state
is `FS_LISTENING` and neither the identification nor the acknowledgement
generator reports `isWanted`; when it is demoted, the identification-repeat,
transmit-timeout, kerchunk, minimum-ack, ack-delay and hang timers are all
stopped; otherwise the mode stays `STATE_FM`. -/
theorem demotion_rule (v : Bool) (s : CFM E) (hm : s.modemState = STATE_FM) :
    ((stateMachine v s).modemState = STATE_IDLE ↔
      (stateMachine v s).state = FS_LISTENING ∧
        E.keyerIsWanted (stateMachine v s).callsign = false ∧
        E.keyerIsWanted (stateMachine v s).rfAck = false) ∧
    ((stateMachine v s).modemState = STATE_IDLE →
      (stateMachine v s).callsignTimer.isRunning = false ∧
      (stateMachine v s).timeoutTimer.isRunning = false ∧
      (stateMachine v s).kerchunkTimer.isRunning = false ∧
      (stateMachine v s).ackMinTimer.isRunning = false ∧
      (stateMachine v s).ackDelayTimer.isRunning = false ∧
      (stateMachine v s).hangTimer.isRunning = false) ∧
    ((stateMachine v s).modemState ≠ STATE_IDLE →
      (stateMachine v s).modemState = STATE_FM) := by
  have hd : (dispatch v s).modemState = STATE_FM := by
    rcases (dispatch_summary v s).1 with h | ⟨h, -⟩
    · exact h
    · rw [h, hm]
  unfold stateMachine
  exact demote_rule (dispatch v s) hd

/-- Witness for C11: the hang time runs out with nothing queued; the controller
returns to `FS_LISTENING` and the host mode is demoted. -/
theorem demotion_rule_witness :
    (stateMachine false simHangOver).modemState = STATE_IDLE ∧
    (stateMachine false simHangOver).callsignTimer.isRunning = false :=
  ⟨(demotion_rule false simHangOver rfl).1.mpr (by decide),
   ((demotion_rule false simHangOver rfl).2.1
     ((demotion_rule false simHangOver rfl).1.mpr (by decide))).1⟩

/-- C17: the transition table. A single evaluation keeps the state or follows
one of the edges of `allowedEdge`: `FS_LISTENING` to `FS_KERCHUNK` or
`FS_RELAYING` (valid); `FS_KERCHUNK` to `FS_RELAYING` (valid) or `FS_LISTENING`
(invalid); `FS_RELAYING` to `FS_TIMEOUT` (valid) or `FS_RELAYING_WAIT`
(invalid); `FS_RELAYING_WAIT` to `FS_RELAYING` (valid) or `FS_HANG` (invalid);
`FS_HANG` to `FS_RELAYING` (valid) or `FS_LISTENING` (invalid); `FS_TIMEOUT` to
`FS_TIMEOUT_WAIT` (invalid); `FS_TIMEOUT_WAIT` to `FS_TIMEOUT` (valid) or
`FS_HANG` (invalid). In particular `FS_TIMEOUT` is never left on a valid
signal. -/
theorem transition_table (v : Bool) (s : CFM E) :
    ((stateMachine v s).state = s.state ∨
      allowedEdge s.state v (stateMachine v s).state = true) ∧
    (s.state = FS_TIMEOUT → v = true → (stateMachine v s).state = FS_TIMEOUT) := by
  have h := (dispatch_summary v s).2.1
  have hst : (stateMachine v s).state = (dispatch v s).state := (demote_frame _).1
  rw [hst]
  refine ⟨h, ?_⟩
  intro hs hv
  subst hv
  rw [hs] at h
  rcases h with h | h
  · exact h
  · rcases hd : (dispatch true s).state <;> rw [hd] at h <;> simp [allowedEdge] at h

/-- Witness for C17: a controller in `FS_TIMEOUT` on a valid signal stays
there. -/
theorem transition_table_witness :
    (stateMachine true { simInit with state := FS_TIMEOUT }).state = FS_TIMEOUT :=
  (transition_table true { simInit with state := FS_TIMEOUT }).2 rfl rfl

/-! ### Configuration -/

/-- C12, counterexample: the CTCSS decoder rejects frequency 0 and `setMisc`
returns its code 1, yet `useCOS`, `rxLevel` and the transmit-timeout duration
have been overwritten with the values of the rejected call. -/
theorem setMisc_error_overwrites :
    (setMisc simSetup 180 80 0 30 20 40 1 5 false true 2 20 128 simInit).1 = 1 ∧
    simInit.useCOS = true ∧
    (setMisc simSetup 180 80 0 30 20 40 1 5 false true 2 20 128 simInit).2.useCOS = false ∧
    simInit.rxLevel = 1 ∧
    (setMisc simSetup 180 80 0 30 20 40 1 5 false true 2 20 128 simInit).2.rxLevel = 128 ∧
    simInit.timeoutTimer.getTimeout = 0 ∧
    (setMisc simSetup 180 80 0 30 20 40 1 5 false true 2 20 128 simInit).2.timeoutTimer.getTimeout
      = 4320000 := by
  decide

/-- C12, as amended: for every call of `setMisc`, whatever status code it
returns, the stored configuration after the call is the one passed in:
`useCOS`, `cosInvert`, `rfAudioBoost`, `rxLevel` and the durations of the
transmit-timeout, kerchunk and hang timers are written before the CTCSS
parameters are validated and are not restored on rejection. When the decoder
rejects its parameters, its code is returned and the encoder is not
configured. -/
theorem setMisc_stores_first (S : Setup E)
    (timeout timeoutLevel ctcssFrequency ctcssHighThreshold ctcssLowThreshold ctcssLevel
      kerchunkTime hangTime : Nat)
    (useCOS cosInvert : Bool) (rfAudioBoost maxDev rxLevel : Nat) (s : CFM E) :
    (setMisc S timeout timeoutLevel ctcssFrequency ctcssHighThreshold ctcssLowThreshold
      ctcssLevel kerchunkTime hangTime useCOS cosInvert rfAudioBoost maxDev rxLevel s).2.useCOS
      = useCOS ∧
    (setMisc S timeout timeoutLevel ctcssFrequency ctcssHighThreshold ctcssLowThreshold
      ctcssLevel kerchunkTime hangTime useCOS cosInvert rfAudioBoost maxDev rxLevel
      s).2.cosInvert = cosInvert ∧
    (setMisc S timeout timeoutLevel ctcssFrequency ctcssHighThreshold ctcssLowThreshold
      ctcssLevel kerchunkTime hangTime useCOS cosInvert rfAudioBoost maxDev rxLevel
      s).2.rfAudioBoost = toQ15 rfAudioBoost ∧
    (setMisc S timeout timeoutLevel ctcssFrequency ctcssHighThreshold ctcssLowThreshold
      ctcssLevel kerchunkTime hangTime useCOS cosInvert rfAudioBoost maxDev rxLevel
      s).2.rxLevel = rxLevel ∧
    (setMisc S timeout timeoutLevel ctcssFrequency ctcssHighThreshold ctcssLowThreshold
      ctcssLevel kerchunkTime hangTime useCOS cosInvert rfAudioBoost maxDev rxLevel
      s).2.timeoutTimer.getTimeout = S.duration timeout 0 ∧
    (setMisc S timeout timeoutLevel ctcssFrequency ctcssHighThreshold ctcssLowThreshold
      ctcssLevel kerchunkTime hangTime useCOS cosInvert rfAudioBoost maxDev rxLevel
      s).2.kerchunkTimer.getTimeout = S.duration kerchunkTime 0 ∧
    (setMisc S timeout timeoutLevel ctcssFrequency ctcssHighThreshold ctcssLowThreshold
      ctcssLevel kerchunkTime hangTime useCOS cosInvert rfAudioBoost maxDev rxLevel
      s).2.hangTimer.getTimeout = S.duration hangTime 0 ∧
    ((S.ctcssRXSetParams s.ctcssRX ctcssFrequency ctcssHighThreshold ctcssLowThreshold).1 ≠ 0 →
      (setMisc S timeout timeoutLevel ctcssFrequency ctcssHighThreshold ctcssLowThreshold
        ctcssLevel kerchunkTime hangTime useCOS cosInvert rfAudioBoost maxDev rxLevel s).1 =
        (S.ctcssRXSetParams s.ctcssRX ctcssFrequency ctcssHighThreshold ctcssLowThreshold).1 ∧
      (setMisc S timeout timeoutLevel ctcssFrequency ctcssHighThreshold ctcssLowThreshold
        ctcssLevel kerchunkTime hangTime useCOS cosInvert rfAudioBoost maxDev rxLevel
        s).2.ctcssTX = s.ctcssTX) := by
  by_cases h :
      (S.ctcssRXSetParams s.ctcssRX ctcssFrequency ctcssHighThreshold ctcssLowThreshold).1 = 0 <;>
    simp [setMisc, h, Timer.setTimeout, Timer.getTimeout]

/-- Witness for C12 as amended: the rejected call of the counterexample. -/
theorem setMisc_stores_first_witness :
    (setMisc simSetup 180 80 0 30 20 40 1 5 false true 2 20 128 simInit).1 = 1 ∧
    (setMisc simSetup 180 80 0 30 20 40 1 5 false true 2 20 128 simInit).2.ctcssTX =
      simInit.ctcssTX :=
  (setMisc_stores_first simSetup 180 80 0 30 20 40 1 5 false true 2 20 128 simInit).2.2.2.2.2.2.2
    (by decide)

/-! ### Sixteen-bit arithmetic -/

/-- The conversion to `q15_t` leaves a value of the signed 16-bit range as it
is. -/
theorem toQ15_of_range (x : Int) (h1 : -32768 ≤ x) (h2 : x ≤ 32767) : toQ15 x = x := by
  unfold toQ15
  have h : (x + 32768) % 65536 = x + 32768 := Int.emod_eq_of_lt (by omega) (by omega)
  omega

/-- C13, counterexample: with the receive level 1, the raw sample 1 is fed to
the decoder as 256, not as 1 / 1 = 1; and the raw sample 32767 is fed as -256,
a wrapped value (the concrete decoder reports it as not valid because it is
negative). -/
theorem level_scaling_shifts_and_wraps :
    simInit.rxLevel = 1 ∧ (frontEnd 1 simInit).2.1 = 256 ∧ Int.tdiv 1 1 = 1 ∧
    (frontEnd 32767 simInit).2.1 = -256 ∧ (frontEnd 32767 simInit).1.valid = false := by
  decide

/-- C13, as amended: for every raw 16-bit sample `s` and every receive level
`d` with `1 ≤ d ≤ 255`, the sample fed to the CTCSS decoder is the conversion
to `q15_t` of the quotient `(s * 256) / d` truncated toward zero: the sample
is widened to 32 bits and shifted left by 8 before the division, and the
shifted value and the quotient fit in 32 bits. The quotient is at least as
large in magnitude as the raw sample (the scaling is a gain of `256 / d`), and
the sample fed equals the quotient whenever the quotient lies in the signed
16-bit range. -/
theorem level_scaling (sample : Int) (s : CFM E)
    (hlo : -32768 ≤ sample) (hhi : sample ≤ 32767)
    (hd1 : 1 ≤ s.rxLevel) (hd2 : s.rxLevel ≤ 255) :
    (frontEnd sample s).1 =
      (E.ctcssRXProcess s.ctcssRX (toQ15 (Int.tdiv (sample * 256) s.rxLevel))).1 ∧
    (-2147483648 ≤ sample * 256 ∧ sample * 256 ≤ 2147483647) ∧
    (-2147483648 ≤ Int.tdiv (sample * 256) s.rxLevel ∧
      Int.tdiv (sample * 256) s.rxLevel ≤ 2147483647) ∧
    sample.natAbs ≤ (Int.tdiv (sample * 256) s.rxLevel).natAbs ∧
    (-32768 ≤ Int.tdiv (sample * 256) s.rxLevel →
      Int.tdiv (sample * 256) s.rxLevel ≤ 32767 →
      (frontEnd sample s).1 =
        (E.ctcssRXProcess s.ctcssRX (Int.tdiv (sample * 256) s.rxLevel)).1) := by
  have hfed : (frontEnd sample s).1 =
      (E.ctcssRXProcess s.ctcssRX (toQ15 (Int.tdiv (sample * 256) s.rxLevel))).1 := by
    unfold frontEnd
    dsimp only
    split <;> rfl
  have habs : (Int.tdiv (sample * 256) s.rxLevel).natAbs =
      (sample.natAbs * 256) / s.rxLevel.natAbs := by
    rw [Int.natAbs_tdiv, Int.natAbs_mul]
    rfl
  have hle : (sample.natAbs * 256) / s.rxLevel.natAbs ≤ sample.natAbs * 256 :=
    Nat.div_le_self _ _
  have hge : sample.natAbs ≤ (sample.natAbs * 256) / s.rxLevel.natAbs := by
    rw [Nat.le_div_iff_mul_le (by omega)]
    exact Nat.mul_le_mul_left _ (by omega)
  refine ⟨hfed, ⟨by omega, by omega⟩, ⟨by omega, by omega⟩, by omega, ?_⟩
  intro h1 h2
  rw [hfed, toQ15_of_range _ h1 h2]

/-- Witness for C13 as amended: receive level 128 and the raw sample 1000; the
decoder is fed (1000 * 256) / 128 = 2000. -/
theorem level_scaling_witness :
    (frontEnd 1000 { simInit with rxLevel := 128 }).1 =
      (simCollab.ctcssRXProcess () 2000).1 :=
  (level_scaling 1000 { simInit with rxLevel := 128 } (by decide) (by decide) (by decide)
    (by decide)).2.2.2.2 (by decide) (by decide)

/-- C14, counterexample: relaying with an audio boost of 2, the blanked sample
20000 leaves the gate as -25536, the product 40000 wrapped modulo 65536, and
not as the clamped product 32767. -/
theorem gain_wraps :
    simBoost.state = FS_RELAYING ∧ (simCollab.blankingProcess simBoost.blanking 20000).1 = 20000 ∧
    (gate 20000 simBoost).1 = -25536 ∧ clampQ15 (20000 * 2) = 32767 := by
  decide

/-- C14, as amended: while `FS_RELAYING` or `FS_KERCHUNK`, the boosted sample
is the product of the blanked sample and `rfAudioBoost` converted to `q15_t`,
that is reduced modulo 2^16 into the signed 16-bit range, not clamped. It
equals the exact product, and so the clamped product, whenever the product lies
in the signed 16-bit range. -/
theorem gain_is_product_narrowed (x : Int) (s : CFM E)
    (hst : s.state = FS_RELAYING ∨ s.state = FS_KERCHUNK) :
    (gate x s).1 = toQ15 ((E.blankingProcess s.blanking x).1 * s.rfAudioBoost) ∧
    (-32768 ≤ (E.blankingProcess s.blanking x).1 * s.rfAudioBoost →
      (E.blankingProcess s.blanking x).1 * s.rfAudioBoost ≤ 32767 →
      (gate x s).1 = (E.blankingProcess s.blanking x).1 * s.rfAudioBoost ∧
      (gate x s).1 = clampQ15 ((E.blankingProcess s.blanking x).1 * s.rfAudioBoost)) := by
  have hg : (gate x s).1 = toQ15 ((E.blankingProcess s.blanking x).1 * s.rfAudioBoost) := by
    unfold gate
    rw [if_pos hst]
  refine ⟨hg, ?_⟩
  intro h1 h2
  rw [hg, toQ15_of_range _ h1 h2]
  refine ⟨rfl, ?_⟩
  unfold clampQ15
  omega

/-- Witness for C14 as amended: boost 2 and the blanked sample 1000 give
2000. -/
theorem gain_is_product_narrowed_witness :
    (gate 1000 simBoost).1 = 2000 ∧ (gate 1000 simBoost).1 = clampQ15 2000 :=
  (gain_is_product_narrowed 1000 simBoost (Or.inl rfl)).2 (by decide) (by decide)

/-! ### Identification send policy and per-block evaluation -/

/-- C15: `sendCallsign` starts the identification generator (and writes "Send
callsign") exactly when the holdoff timer is not running, or is running and
has expired. When it is running and expired the same call restarts it; when it
is running and unexpired the call changes nothing, neither the generator nor
the holdoff timer; when it is not running the holdoff timer is left as it
is. -/
theorem sendCallsign_policy (s : CFM E) :
    (sendCallsign s).callsign =
      (if !s.holdoffTimer.isRunning || s.holdoffTimer.hasExpired then E.keyerStart s.callsign
        else s.callsign) ∧
    (sendCallsign s).debug.count "Send callsign" =
      s.debug.count "Send callsign" +
        (if !s.holdoffTimer.isRunning || s.holdoffTimer.hasExpired then 1 else 0) ∧
    (s.holdoffTimer.isRunning = true → s.holdoffTimer.hasExpired = true →
      (sendCallsign s).holdoffTimer = s.holdoffTimer.start) ∧
    (s.holdoffTimer.isRunning = true → s.holdoffTimer.hasExpired = false →
      sendCallsign s = s) ∧
    (s.holdoffTimer.isRunning = false → (sendCallsign s).holdoffTimer = s.holdoffTimer) := by
  unfold sendCallsign
  rcases Bool.eq_false_or_eq_true s.holdoffTimer.isRunning with hr | hr <;>
    rcases Bool.eq_false_or_eq_true s.holdoffTimer.hasExpired with hx | hx <;>
    simp [hr, hx, DEBUG1, List.count_cons]

/-- Witness for C15: the holdoff timer is running and has expired; the
generator is started and the holdoff timer restarted. -/
theorem sendCallsign_policy_witness :
    simCollab.keyerIsWanted (sendCallsign simHoldoffOver).callsign = true ∧
    (sendCallsign simHoldoffOver).holdoffTimer =
      { timeout := 600, elapsed := 0, running := true } :=
  ⟨congrArg simCollab.keyerIsWanted (sendCallsign_policy simHoldoffOver).1,
   (sendCallsign_policy simHoldoffOver).2.2.1 rfl (by decide)⟩

/-- The front end leaves the host mode alone. -/
theorem frontEnd_modemState (x : Int) (s : CFM E) :
    (frontEnd x s).2.2.modemState = s.modemState := by
  have h := frontEnd_control x s
  simp only [control, Prod.mk.injEq] at h
  exact h.2.1

/-- A pass without evaluation leaves the host mode alone. -/
theorem quietPass_modemState (x : Int) (s : CFM E) :
    (quietPass x s).modemState = s.modemState := by
  have h := audioPath_control (frontEnd x s).2.1 (frontEnd x s).2.2
  simp only [control, Prod.mk.injEq] at h
  unfold quietPass
  exact h.2.1.trans (frontEnd_modemState x s)

/-- The loop of `CFM::samples` on a block whose samples all find the decoder
not ready, in host mode `STATE_FM`: passes without evaluation, then one pass
with evaluation for the last sample. -/
theorem samplesLoop_not_ready (cos : Bool) (xl : Int) (init : List Int) (s : CFM E)
    (hm : s.modemState = STATE_FM) (hnr : notReadyThroughout (init ++ [xl]) s = true) :
    samplesLoop cos (init ++ [xl]) s =
      evaluatedPass cos xl (init.foldl (fun c x => quietPass x c) s) := by
  induction init generalizing s with
  | nil =>
    have hr : (frontEnd xl s).1.ready = false := by
      simpa [notReadyThroughout] using hnr
    have hev := evaluate_fm cos (frontEnd xl s).1 true (frontEnd xl s).2.2
      ((frontEnd_modemState xl s).trans hm)
    simp only [hr, Bool.false_eq_true, ↓reduceIte] at hev
    have hstep : sampleStep cos xl true s = (false, evaluatedPass cos xl s) := by
      unfold sampleStep evaluatedPass
      simp only [hev]
    show samplesLoop cos [xl] s = evaluatedPass cos xl s
    unfold samplesLoop
    simp only [List.isEmpty_nil, hstep, Bool.false_eq_true, ↓reduceIte]
    rfl
  | cons x rest ih =>
    have hr : (frontEnd x s).1.ready = false ∧
        notReadyThroughout (rest ++ [xl]) (quietPass x s) = true := by
      simpa [notReadyThroughout] using hnr
    have hlast : (rest ++ [xl]).isEmpty = false := by
      cases rest <;> rfl
    have hev := evaluate_fm cos (frontEnd x s).1 false (frontEnd x s).2.2
      ((frontEnd_modemState x s).trans hm)
    simp only [hr.1, Bool.false_eq_true, ↓reduceIte] at hev
    have hstep : sampleStep cos x false s = (false, quietPass x s) := by
      unfold sampleStep quietPass
      simp only [hev]
    show samplesLoop cos (x :: (rest ++ [xl])) s = _
    rw [samplesLoop, hlast]
    simp only [hstep, Bool.false_eq_true, ↓reduceIte, List.foldl_cons]
    exact ih (quietPass x s) ((quietPass_modemState x s).trans hm) hr.2

/-- C16: for every block of length `n ≥ 1` (its first `n - 1` samples `init`,
its last sample `xl`) passed to `CFM::samples` in host mode `STATE_FM`, when the
CTCSS decoder reports not-ready for every sample, the state machine is
evaluated exactly once, for the last sample, with `validSignal` = decoder valid
flag AND effective carrier flag: the block is processed by `n - 1` passes
without evaluation followed by one pass with that evaluation, whatever `n`
is. -/
theorem samples_evaluates_once (cos : Bool) (xl : Int) (init : List Int) (s : CFM E)
    (hm : s.modemState = STATE_FM)
    (hnr : notReadyThroughout (init ++ [xl]) (clock (init ++ [xl]).length s) = true) :
    samples cos (init ++ [xl]) s =
      evaluatedPass (if s.useCOS then (if s.cosInvert then !cos else cos) else true) xl
        (init.foldl (fun c x => quietPass x c) (clock (init ++ [xl]).length s)) := by
  have h := samplesLoop_not_ready
    (if s.useCOS then (if s.cosInvert then !cos else cos) else true) xl init
    (clock (init ++ [xl]).length s) hm hnr
  exact h

/-- Witness for C16: a block of three samples over a decoder that is never
ready, relaying with 3990 of 4000 timeout ticks elapsed. The single evaluation,
for the last sample, finds no valid signal and moves to `FS_RELAYING_WAIT`. -/
theorem samples_evaluates_once_witness :
    samples true [5, 6, -7] simQuietRelaying =
      evaluatedPass true (-7)
        ([5, 6].foldl (fun c x => quietPass x c) (clock 3 simQuietRelaying)) ∧
    (samples true [5, 6, -7] simQuietRelaying).state = FS_RELAYING_WAIT :=
  ⟨samples_evaluates_once true (-7) [5, 6] simQuietRelaying rfl (by decide), by decide⟩

/-! ### Invariants over sequences of calls -/

/-- The demotion check keeps mode/state consistency. -/
theorem demote_modeConsistent (d : CFM E) (h : ModeConsistent d) :
    ModeConsistent (demote d) := by
  intro hne
  rw [(demote_frame d).1] at hne
  rw [demote_not_listening d hne]
  exact h hne

/-- The demotion check keeps timer/state consistency. -/
theorem demote_timersConsistent (d : CFM E) (h : TimersConsistent d) :
    TimersConsistent (demote d) := by
  unfold TimersConsistent at h ⊢
  by_cases hs : d.state = FS_LISTENING ∧ d.modemState = STATE_FM <;>
    rcases Bool.eq_false_or_eq_true (E.keyerIsWanted d.callsign) with h1 | h1 <;>
    rcases Bool.eq_false_or_eq_true (E.keyerIsWanted d.rfAck) with h2 | h2 <;>
    simp [demote, hs, h1, h2, DEBUG1, Timer.stop, Timer.isRunning]
  all_goals first
    | exact h
    | (simp [hs, Timer.isRunning] at h
       exact h)

/-- An evaluation keeps mode/state consistency. -/
theorem stateMachine_modeConsistent (v : Bool) (s : CFM E) (h : ModeConsistent s) :
    ModeConsistent (stateMachine v s) := by
  apply demote_modeConsistent
  intro hne
  rcases (dispatch_summary v s).1 with hm | ⟨hm, hl⟩
  · exact hm
  · rw [hm]
    exact h (fun hs => hne (hl hs))

/-- An evaluation keeps timer/state consistency. -/
theorem stateMachine_timersConsistent (v : Bool) (s : CFM E) (h : TimersConsistent s) :
    TimersConsistent (stateMachine v s) :=
  demote_timersConsistent _ ((dispatch_summary v s).2.2 h)

/-- The configuration functions write neither the state nor the host mode nor
the running flag of the kerchunk, ack-delay and transmit-timeout timers. -/
theorem configuration_frame (S : Setup E) (op : Op) (s : CFM E)
    (hop : ∀ v, op ≠ Op.evaluate v) (hr : op ≠ Op.reset) :
    (perform S op s).state = s.state ∧ (perform S op s).modemState = s.modemState ∧
    (perform S op s).kerchunkTimer.isRunning = s.kerchunkTimer.isRunning ∧
    (perform S op s).ackDelayTimer.isRunning = s.ackDelayTimer.isRunning ∧
    (perform S op s).timeoutTimer.isRunning = s.timeoutTimer.isRunning ∧
    (perform S op s).hangTimer.isRunning = s.hangTimer.isRunning := by
  cases op with
  | evaluate v => exact absurd rfl (hop v)
  | reset => exact absurd rfl hr
  | clock n =>
    refine ⟨rfl, rfl, ?_, ?_, ?_, ?_⟩
    · exact (timer_clock_frame s.kerchunkTimer n).1
    · exact (timer_clock_frame s.ackDelayTimer n).1
    · exact (timer_clock_frame s.timeoutTimer n).1
    · exact (timer_clock_frame s.hangTimer n).1
  | setCallsign c sp f t h hi lo a e l =>
    by_cases hh : 0 < h * 60 % 65536 <;>
      simp [perform, setCallsign, hh, Timer.setTimeout, Timer.isRunning]
  | setAck a sp f m d l =>
    by_cases hm : 0 < m <;> simp [perform, setAck, hm, Timer.setTimeout, Timer.isRunning]
  | setMisc t tl cf ch cl cv k h u ci b md rx =>
    by_cases hc : (S.ctcssRXSetParams s.ctcssRX cf ch cl).1 = 0 <;>
      simp [perform, setMisc, hc, Timer.setTimeout, Timer.isRunning]

/-- Every call keeps mode/state consistency. -/
theorem perform_modeConsistent (S : Setup E) (op : Op) (s : CFM E) (h : ModeConsistent s) :
    ModeConsistent (perform S op s) := by
  by_cases hev : ∃ v, op = Op.evaluate v
  · obtain ⟨v, rfl⟩ := hev
    exact stateMachine_modeConsistent v s h
  · by_cases hr : op = Op.reset
    · subst hr
      intro hne
      exact absurd rfl hne
    · have hf := configuration_frame S op s (fun v hv => hev ⟨v, hv⟩) hr
      unfold ModeConsistent
      rw [hf.1, hf.2.1]
      exact h

/-- Every call keeps timer/state consistency. -/
theorem perform_timersConsistent (S : Setup E) (op : Op) (s : CFM E)
    (h : TimersConsistent s) : TimersConsistent (perform S op s) := by
  by_cases hev : ∃ v, op = Op.evaluate v
  · obtain ⟨v, rfl⟩ := hev
    exact stateMachine_timersConsistent v s h
  · by_cases hr : op = Op.reset
    · subst hr
      exact ⟨fun hk => absurd hk (by simp [perform, reset, Timer.stop, Timer.isRunning]),
        fun hk => absurd hk (by simp [perform, reset, Timer.stop, Timer.isRunning]),
        fun hk => absurd hk (by simp [perform, reset, Timer.stop, Timer.isRunning])⟩
    · have hf := configuration_frame S op s (fun v hv => hev ⟨v, hv⟩) hr
      unfold TimersConsistent
      rw [hf.1, hf.2.2.1, hf.2.2.2.1, hf.2.2.2.2.1]
      exact h

/-- A property kept by every call holds after every sequence of calls. -/
theorem performAll_invariant (S : Setup E) (P : CFM E → Prop)
    (hstep : ∀ op s, P s → P (perform S op s)) (ops : List Op) (s : CFM E) (h : P s) :
    P (performAll S ops s) := by
  induction ops generalizing s with
  | nil => exact h
  | cons op rest ih => exact ih _ (hstep op s h)

/-- C18: in every state reached from the constructed controller by a sequence
of `stateMachine` evaluations and `reset` calls (and of `clock` and
configuration calls, which write neither the state nor the host mode), whenever
the controller state is not `FS_LISTENING` the host mode is `STATE_FM`. -/
theorem mode_state_invariant (S : Setup E) (ops : List Op) (s : CFM E) (h : Constructed s) :
    (performAll S ops s).state ≠ FS_LISTENING →
      (performAll S ops s).modemState = STATE_FM :=
  performAll_invariant S ModeConsistent (perform_modeConsistent S) ops s
    (fun hne => absurd h.1 hne)

/-- Witness for C18: the constructed controller keyed up and timed out. -/
theorem mode_state_invariant_witness :
    (performAll simSetup
      [Op.setMisc 1 80 88 30 20 40 0 5 true false 1 20 128, Op.evaluate true, Op.clock 24001,
        Op.evaluate true] simInit).state = FS_TIMEOUT ∧
    (performAll simSetup
      [Op.setMisc 1 80 88 30 20 40 0 5 true false 1 20 128, Op.evaluate true, Op.clock 24001,
        Op.evaluate true] simInit).modemState = STATE_FM :=
  ⟨by decide,
   mode_state_invariant simSetup
     [Op.setMisc 1 80 88 30 20 40 0 5 true false 1 20 128, Op.evaluate true, Op.clock 24001,
       Op.evaluate true] simInit ⟨rfl, rfl, rfl, rfl, rfl, rfl, rfl, rfl⟩ (by decide)⟩

/-- C19: in every state reached from the constructed controller (no timer
running) by a sequence of `stateMachine` evaluations, `clock` calls, `reset`
calls and configuration calls, the kerchunk timer is running only if the state
is `FS_KERCHUNK`, the ack-delay timer only if it is `FS_RELAYING_WAIT` or
`FS_TIMEOUT_WAIT`, and the transmit-timeout timer only if it is `FS_KERCHUNK`,
`FS_RELAYING` or `FS_RELAYING_WAIT`. -/
theorem timer_state_invariant (S : Setup E) (ops : List Op) (s : CFM E) (h : Constructed s) :
    ((performAll S ops s).kerchunkTimer.isRunning = true →
      (performAll S ops s).state = FS_KERCHUNK) ∧
    ((performAll S ops s).ackDelayTimer.isRunning = true →
      (performAll S ops s).state = FS_RELAYING_WAIT ∨
      (performAll S ops s).state = FS_TIMEOUT_WAIT) ∧
    ((performAll S ops s).timeoutTimer.isRunning = true →
      (performAll S ops s).state = FS_KERCHUNK ∨ (performAll S ops s).state = FS_RELAYING ∨
      (performAll S ops s).state = FS_RELAYING_WAIT) := by
  have h0 : TimersConsistent s := by
    obtain ⟨-, -, ht, -, hk, -, ha, -⟩ := h
    exact ⟨fun hr => absurd (hk.symm.trans hr) (by decide),
      fun hr => absurd (ha.symm.trans hr) (by decide),
      fun hr => absurd (ht.symm.trans hr) (by decide)⟩
  exact performAll_invariant S TimersConsistent (perform_timersConsistent S) ops s h0

/-- Witness for C19: configured with a kerchunk time of one second, the
constructed controller on a valid signal has the kerchunk and the
transmit-timeout timers running in `FS_KERCHUNK`. -/
theorem timer_state_invariant_witness :
    (performAll simSetup
      [Op.setMisc 180 80 88 30 20 40 1 5 true false 1 20 128, Op.evaluate true, Op.clock 100]
      simInit).kerchunkTimer.isRunning = true ∧
    (performAll simSetup
      [Op.setMisc 180 80 88 30 20 40 1 5 true false 1 20 128, Op.evaluate true, Op.clock 100]
      simInit).state = FS_KERCHUNK :=
  ⟨by decide,
   (timer_state_invariant simSetup
     [Op.setMisc 180 80 88 30 20 40 1 5 true false 1 20 128, Op.evaluate true, Op.clock 100]
     simInit ⟨rfl, rfl, rfl, rfl, rfl, rfl, rfl, rfl⟩).1 (by decide)⟩

/-! ### A hang time of 0 -/

/-- No edge of the transition table enters `FS_KERCHUNK` except from
`FS_LISTENING`; the only edges into `FS_LISTENING` come from `FS_KERCHUNK` and,
without a valid signal, from `FS_HANG`; the only edges out of `FS_HANG` are to
`FS_RELAYING` on a valid signal and to `FS_LISTENING` without one. -/
theorem allowedEdge_shape (a : FMState) (v : Bool) (b : FMState)
    (h : allowedEdge a v b = true) :
    (b = FS_KERCHUNK → a = FS_LISTENING) ∧
    (b = FS_LISTENING → a = FS_KERCHUNK ∨ (a = FS_HANG ∧ v = false)) ∧
    (a = FS_HANG → (v = true ∧ b = FS_RELAYING) ∨ (v = false ∧ b = FS_LISTENING)) := by
  cases a <;> cases v <;> cases b <;> simp [allowedEdge] at h ⊢

/-- The `switch` of `stateMachine` keeps a disabled hang timer disabled:
`m_hangTimer.start()` in `relayingWaitState` and `timeoutWaitState` does not
set a timer of duration 0 running. -/
theorem dispatch_hangDisabled (v : Bool) (s : CFM E) (h : HangDisabled s) :
    HangDisabled (dispatch v s) := by
  have hd := dispatch_eq v s
  obtain ⟨h0, hnr⟩ := h
  have h0t : s.hangTimer.timeout = 0 := h0
  have hnt : s.hangTimer.running = false := hnr
  unfold HangDisabled
  rcases hstate : s.state
  · rw [hd.1 hstate]
    rcases Bool.eq_false_or_eq_true v with hv | hv
    · rw [hv, (listeningState_valid s).2.2.2.2.2.2.2.1]
      exact ⟨h0, hnr⟩
    · rw [hv]
      have he : listeningState false s = s := by
        unfold listeningState
        exact if_neg (by decide)
      rw [he]
      exact ⟨h0, hnr⟩
  · rw [hd.2.1 hstate]
    rcases Bool.eq_false_or_eq_true v with hv | hv <;>
      rcases Bool.eq_false_or_eq_true s.kerchunkTimer.hasExpired with hx | hx <;>
      rcases Bool.eq_false_or_eq_true s.callsignAtStart with h1 | h1 <;>
      rcases Bool.eq_false_or_eq_true s.callsignAtLatch with h2 | h2 <;>
      simp [kerchunkState, Timer.isRunning, Timer.getTimeout, hv, hx, h1, h2, h0t, hnt,
        sendCallsign_frame, DEBUG1]
  · rw [hd.2.2.1 hstate]
    rcases Bool.eq_false_or_eq_true v with hv | hv <;>
      rcases Bool.eq_false_or_eq_true s.timeoutTimer.running with hr | hr <;>
      rcases Bool.eq_false_or_eq_true s.timeoutTimer.hasExpired with hx | hx <;>
      simp [relayingState, Timer.isRunning, Timer.getTimeout, hv, hr, hx, h0t, hnt,
        callsignRepeat_frame, DEBUG1]
  · rw [hd.2.2.2.1 hstate]
    rcases Bool.eq_false_or_eq_true v with hv | hv <;>
      rcases Bool.eq_false_or_eq_true s.ackDelayTimer.running with hr | hr <;>
      rcases Bool.eq_false_or_eq_true s.ackDelayTimer.hasExpired with hx | hx <;>
      rcases Bool.eq_false_or_eq_true s.ackMinTimer.running with hmr | hmr <;>
      rcases Bool.eq_false_or_eq_true s.ackMinTimer.hasExpired with hmx | hmx <;>
      simp [relayingWaitState, Timer.isRunning, Timer.getTimeout, Timer.start, hv, hr, hx, hmr,
        hmx, h0t, hnt, callsignRepeat_frame, DEBUG1]
  · rw [hd.2.2.2.2.1 hstate]
    rcases Bool.eq_false_or_eq_true v with hv | hv <;>
      simp [timeoutState, Timer.isRunning, Timer.getTimeout, hv, h0t, hnt,
        callsignRepeat_frame, DEBUG1]
  · rw [hd.2.2.2.2.2.1 hstate]
    rcases Bool.eq_false_or_eq_true v with hv | hv <;>
      rcases Bool.eq_false_or_eq_true s.ackDelayTimer.running with hr | hr <;>
      rcases Bool.eq_false_or_eq_true s.ackDelayTimer.hasExpired with hx | hx <;>
      simp [timeoutWaitState, Timer.isRunning, Timer.getTimeout, Timer.start, hv, hr, hx,
        h0t, hnt, callsignRepeat_frame, DEBUG1]
  · rw [hd.2.2.2.2.2.2 hstate]
    rcases Bool.eq_false_or_eq_true v with hv | hv <;>
      rcases Bool.eq_false_or_eq_true s.callsignAtEnd with h1 | h1 <;>
      simp [hangState, Timer.isRunning, Timer.getTimeout, hv, h1, h0t, hnt,
        callsignRepeat_frame, sendCallsign_frame, beginRelaying, DEBUG1]

/-- In `FS_HANG` with the hang timer not running, `hangState` without a valid
signal keeps the state: the test `isRunning() && hasExpired()` fails. -/
theorem hang_invalid_stays (s : CFM E) (hs : s.state = FS_HANG)
    (hnr : s.hangTimer.isRunning = false) : (dispatch false s).state = FS_HANG := by
  have hnt : s.hangTimer.running = false := hnr
  rw [(dispatch_eq false s).2.2.2.2.2.2 hs]
  simp [hangState, Timer.isRunning, hnt, callsignRepeat_frame, hs]

/-- Clock ticks, evaluations and `reset` keep a disabled hang timer disabled:
from the constructed controller with a hang time of 0, the hang timer is never
running unless the hang time is reconfigured. -/
theorem hangDisabled_invariant (s : CFM E) (h : HangDisabled s) :
    (∀ n, HangDisabled (clock n s)) ∧ (∀ v, HangDisabled (stateMachine v s)) ∧
    HangDisabled (reset s) := by
  refine ⟨fun n => ⟨(timer_clock_frame s.hangTimer n).2.1.trans h.1,
    (timer_clock_frame s.hangTimer n).1.trans h.2⟩, ?_, ⟨h.1, rfl⟩⟩
  intro v
  have hd := dispatch_hangDisabled v s h
  have h0t : (dispatch v s).hangTimer.timeout = 0 := hd.1
  have hnt : (dispatch v s).hangTimer.running = false := hd.2
  unfold stateMachine HangDisabled
  by_cases hs : (dispatch v s).state = FS_LISTENING ∧ (dispatch v s).modemState = STATE_FM <;>
    rcases Bool.eq_false_or_eq_true (E.keyerIsWanted (dispatch v s).callsign) with h1 | h1 <;>
    rcases Bool.eq_false_or_eq_true (E.keyerIsWanted (dispatch v s).rfAck) with h2 | h2 <;>
    simp [demote, hs, h1, h2, DEBUG1, Timer.stop, Timer.isRunning, Timer.getTimeout, h0t, hnt]

/-- One evaluation after any number of clock ticks, from a state other than
`FS_LISTENING` and `FS_KERCHUNK` with the hang timer disabled: the hang timer
stays disabled, the state stays outside `FS_LISTENING` and `FS_KERCHUNK`, and
`FS_HANG` is kept without a valid signal and left only to `FS_RELAYING` on a
valid signal. -/
theorem stateMachine_hangDisabled (n : Nat) (v : Bool) (s : CFM E) (h : HangDisabled s)
    (hl : s.state ≠ FS_LISTENING) (hk : s.state ≠ FS_KERCHUNK) :
    HangDisabled (stateMachine v (clock n s)) ∧
    (stateMachine v (clock n s)).state ≠ FS_LISTENING ∧
    (stateMachine v (clock n s)).state ≠ FS_KERCHUNK ∧
    (s.state = FS_HANG → v = false → (stateMachine v (clock n s)).state = FS_HANG) ∧
    (s.state = FS_HANG → (stateMachine v (clock n s)).state ≠ FS_HANG →
      v = true ∧ (stateMachine v (clock n s)).state = FS_RELAYING) := by
  have hcs : (clock n s).state = s.state := rfl
  have hc : HangDisabled (clock n s) :=
    ⟨(timer_clock_frame s.hangTimer n).2.1.trans h.1,
     (timer_clock_frame s.hangTimer n).1.trans h.2⟩
  have hd : HangDisabled (dispatch v (clock n s)) :=
    dispatch_hangDisabled v (clock n s) hc
  have hstay : s.state = FS_HANG → v = false → (dispatch v (clock n s)).state = FS_HANG := by
    intro hs hv
    rw [hv]
    exact hang_invalid_stays (clock n s) hs hc.2
  have hedge := (dispatch_summary v (clock n s)).2.1
  rw [hcs] at hedge
  have hdl : (dispatch v (clock n s)).state ≠ FS_LISTENING := by
    intro hcontra
    rcases hedge with he | he
    · exact hl (he.symm.trans hcontra)
    · rcases (allowedEdge_shape _ _ _ he).2.1 hcontra with h1 | ⟨h1, h2⟩
      · exact hk h1
      · exact absurd ((hstay h1 h2).symm.trans hcontra) (by decide)
  have hsm : stateMachine v (clock n s) = dispatch v (clock n s) :=
    demote_not_listening _ hdl
  rw [hsm]
  refine ⟨hd, hdl, ?_, hstay, ?_⟩
  · intro hcontra
    rcases hedge with he | he
    · exact hk (he.symm.trans hcontra)
    · exact hl ((allowedEdge_shape _ _ _ he).1 hcontra)
  · intro hs hne
    rcases hedge with he | he
    · exact absurd (he.trans hs) hne
    · rcases (allowedEdge_shape _ _ _ he).2.2 hs with h1 | ⟨-, h2⟩
      · exact h1
      · exact absurd h2 hdl

/-- With the hang timer disabled, no run of evaluations and clock ticks that
starts outside `FS_LISTENING` and `FS_KERCHUNK` reaches `FS_LISTENING`. -/
theorem evaluations_never_listening (run : List (Nat × Bool)) (s : CFM E)
    (h : HangDisabled s) (hl : s.state ≠ FS_LISTENING) (hk : s.state ≠ FS_KERCHUNK) :
    ∀ c ∈ evaluations run s, c.state ≠ FS_LISTENING := by
  induction run generalizing s with
  | nil =>
    intro c hc
    exact absurd hc (List.not_mem_nil c)
  | cons e rest ih =>
    obtain ⟨n, v⟩ := e
    have hstep := stateMachine_hangDisabled n v s h hl hk
    intro c hc
    rw [evaluations_cons] at hc
    rcases List.mem_cons.mp hc with heq | hmem
    · rw [heq]
      exact hstep.2.1
    · exact ih _ hstep.1 hstep.2.1 hstep.2.2.1 c hmem

/-- With the hang timer disabled, every run of evaluations without a valid
signal that starts in `FS_HANG` stays in `FS_HANG`, the hang timer never
running. -/
theorem evaluations_stay_hang (ticks : List Nat) (s : CFM E) (h : HangDisabled s)
    (hs : s.state = FS_HANG) :
    ∀ c ∈ evaluations (ticks.map fun n => (n, false)) s,
      c.state = FS_HANG ∧ c.hangTimer.isRunning = false := by
  induction ticks generalizing s with
  | nil =>
    intro c hc
    exact absurd hc (List.not_mem_nil c)
  | cons n rest ih =>
    have hstep := stateMachine_hangDisabled n false s h (by rw [hs]; decide)
      (by rw [hs]; decide)
    intro c hc
    rw [List.map_cons, evaluations_cons] at hc
    rcases List.mem_cons.mp hc with heq | hmem
    · rw [heq]
      exact ⟨hstep.2.2.2.1 hs rfl, hstep.1.2⟩
    · exact ih _ hstep.1 (hstep.2.2.2.1 hs rfl) c hmem

/-- C20: zero hang time traps the controller. In `FS_HANG` with a hang-timer
duration of 0 and the hang timer not running (what `m_hangTimer.start()` leaves
under the contract that a timer of duration 0 is never started): starting the
hang timer leaves it not running; every `stateMachine` evaluation without a
valid signal leaves the state `FS_HANG`, for every number of evaluations and of
clock ticks before each; no run of evaluations at all, with or without valid
signal, reaches `FS_LISTENING`; an evaluation that leaves `FS_HANG` has a valid
signal and goes to `FS_RELAYING`; and `reset` returns to `FS_LISTENING`. -/
theorem zero_hang_time_traps (s : CFM E) (hs : s.state = FS_HANG)
    (h0 : s.hangTimer.getTimeout = 0) (hnr : s.hangTimer.isRunning = false) :
    s.hangTimer.start.isRunning = false ∧
    (∀ ticks : List Nat, ∀ c ∈ evaluations (ticks.map fun n => (n, false)) s,
      c.state = FS_HANG ∧ c.hangTimer.isRunning = false) ∧
    (∀ run : List (Nat × Bool), ∀ c ∈ evaluations run s, c.state ≠ FS_LISTENING) ∧
    (∀ (n : Nat) (v : Bool), (stateMachine v (clock n s)).state ≠ FS_HANG →
      v = true ∧ (stateMachine v (clock n s)).state = FS_RELAYING) ∧
    (reset s).state = FS_LISTENING := by
  have hl : s.state ≠ FS_LISTENING := by rw [hs]; decide
  have hk : s.state ≠ FS_KERCHUNK := by rw [hs]; decide
  have h0t : s.hangTimer.timeout = 0 := h0
  refine ⟨?_, fun ticks => evaluations_stay_hang ticks s ⟨h0, hnr⟩ hs,
    fun run => evaluations_never_listening run s ⟨h0, hnr⟩ hl hk,
    fun n v => (stateMachine_hangDisabled n v s ⟨h0, hnr⟩ hl hk).2.2.2.2 hs, rfl⟩
  unfold Timer.start
  rw [if_neg (by rw [h0t]; decide)]
  exact hnr

/-- Witness for C20: the controller that entered `FS_HANG` from
`FS_RELAYING_WAIT` with a hang time of 0, clocked and evaluated three times
without a valid signal, is still in `FS_HANG`. -/
theorem zero_hang_time_traps_witness :
    (stateMachine false simZeroHang).state = FS_HANG ∧
    ∀ c ∈ evaluations ([24000, 48000, 1000000].map fun n => (n, false))
        (stateMachine false simZeroHang),
      c.state = FS_HANG ∧ c.hangTimer.isRunning = false :=
  ⟨by decide,
   (zero_hang_time_traps (stateMachine false simZeroHang) (by decide) (by decide)
     (by decide)).2.1 [24000, 48000, 1000000]⟩

end MMDVM
